import Mathlib

/-!
# IAQ control-system logic engine: a shallow embedding

This file embeds the decision logic of `src/logic_engine.py` (class
`IAQLogicEngine`) of the Azendian-Solutions IAQ control-system repository
and proves properties of it.

Modelling conventions:
* Sensor readings and thresholds are integers (`Int`); the Python code only
  compares and adds these values, so the embedding is order-faithful.
* Timestamps are minutes, modelled as `Nat`; `timedelta` comparison
  `ts - alert_start_time >= timedelta(minutes=p)` becomes `ts - t0 >= p`
  (timestamps are processed in ascending order, exactly as
  `run_simulation` sorts them).
* A Python dict reading `d.get(k, default)` becomes `Option.getD`;
  a reading `d[k]` that can raise `KeyError`, a `DataFrame.item()` call
  that can raise, and the `TypeError` of comparing `None` with a number
  are modelled as `Except String`, the error message standing for the
  Python exception.
* `self.log_records` (appended to by `_log_action`) is modelled by the
  returned `List LogRecord`; `self.sensor_states` by an association list
  threaded through the per-timestamp loop.
-/

/-- One row of the tidy IAQ table: a single sensor reading at one timestamp.
All metric fields are optional, mirroring `sensor_row.get(...)` in the code. -/
structure SensorRow where
  datetime : Nat
  sensor_id : String
  co2 : Option Int
  tvoc : Option Int
  pm2_5 : Option Int
  pm10 : Option Int
  hcho : Option Int
  humidity : Option Int
  temperature : Option Int
deriving Repr, DecidableEq

/-- One row of the tidy VAV table (columns used by the engine). -/
structure VavRow where
  datetime : Nat
  vav_id : String
  cmaxflo : Int
  supflosp : Int
  ocmnc_sp : Int
deriving Repr, DecidableEq

/-- One row of the AHU table.  The two filter statuses are read via
`.get(...)` in `_check_bms_filter_alarms` (hence `Option`); the damper
fields are read via `.select(...).item()` on the row, so they are plain
fields here and row multiplicity is handled at the lookup. -/
structure AhuRow where
  datetime : Nat
  pri_filt_sts : Option Int
  sec_fil_sts : Option Int
  fad_fb : Int
  fad_max_stpt : Int
deriving Repr, DecidableEq

/-- The three tidy tables handed to `run_simulation`. -/
structure AllData where
  iaq : List SensorRow
  vav : List VavRow
  ahu : List AhuRow
deriving Repr, DecidableEq

/-- `thresholds.triggering` section of the configuration. -/
structure TriggerThresholds where
  co2_ppm_above_outdoor : Int
  tvoc_ug_m3 : Int
  pm2_5_ug_m3 : Int
  pm10_ug_m3 : Int
  hcho_ug_m3 : Int
  rh_percent_max : Int
  temp_c_min : Int
  temp_c_max : Int
  persistence_minutes : Nat
  pad_increase_percent : Int
  max_dilution_cycles : Nat
deriving Repr, DecidableEq

/-- `thresholds.normalization` section of the configuration. -/
structure NormalizationThresholds where
  co2_ppm_above_outdoor : Int
  tvoc_ug_m3 : Int
  pm2_5_ug_m3 : Int
  pm10_ug_m3 : Int
  hcho_ug_m3 : Int
  rh_percent_max : Int
deriving Repr, DecidableEq

/-- `thresholds.psi` section of the configuration. -/
structure PsiThresholds where
  unhealthy_min : Int
  unhealthy_max : Int
  very_unhealthy_min : Int
deriving Repr, DecidableEq

/-- `actions.branch_b` percentages. -/
structure BranchBActions where
  vav_flow_increase_pct : Int
  chw_valve_increase_pct : Int
deriving Repr, DecidableEq

/-- `actions.branch_c` percentages. -/
structure BranchCActions where
  vav_flow_decrease_pct : Int
  chw_valve_decrease_pct : Int
deriving Repr, DecidableEq

/-- `actions.branch_d` percentages. -/
structure BranchDActions where
  chw_valve_increase_pct : Int
deriving Repr, DecidableEq

/-- `actions` section.  `_validate_config` checks that `branch_b` and
`branch_c` are present (so they are plain fields of the validated view),
but it never checks `branch_d`, which `_execute_branch_d` reads with a
plain `["branch_d"]` subscript; `branch_d` is therefore an `Option` and
its absence surfaces as a `KeyError` at branch-execution time. -/
structure ActionsConfig where
  branch_b : BranchBActions
  branch_c : BranchCActions
  branch_d : Option BranchDActions
deriving Repr, DecidableEq

/-- The validated configuration view held by `IAQLogicEngine.__init__`
(`self.outdoor_co2`, `self.sensor_default`, `self.thresholds`,
`self.sensor_to_vav_map`, `self.actions_config`). -/
structure Engine where
  outdoor_co2 : Int
  sensor_default : Int
  enable_bms_filter_check : Bool
  triggering : TriggerThresholds
  normalization : NormalizationThresholds
  psi : PsiThresholds
  sensor_to_vav_map : List (String × String)
  actions : ActionsConfig
deriving Repr, DecidableEq

/-- One record appended by `_log_action`.  `timestamp = none` models the
literal string `"N/A"` used by the PSI advisory records; `reasons` keeps
the Python list (the code stores `str(reasons)`). -/
structure LogRecord where
  timestamp : Option Nat
  sensor_id : String
  event : String
  details : String
  reasons : List String
  dilution_cycle : Nat
deriving Repr, DecidableEq

/-- The per-sensor mutable state created in `run_simulation`:
`{"is_triggered": False, "alert_start_time": None, "has_fired": False,
"dilution_cycle_count": 0, "alert_type": None}`. -/
structure SensorState where
  is_triggered : Bool
  alert_start_time : Option Nat
  has_fired : Bool
  dilution_cycle_count : Nat
  alert_type : Option String
deriving Repr, DecidableEq

/-- The state a sensor is created with on first sighting. -/
def initState : SensorState :=
  { is_triggered := false, alert_start_time := none, has_fired := false,
    dilution_cycle_count := 0, alert_type := none }

/-- `_check_iaq_triggers`: list of violated trigger thresholds, in the fixed
source order co2, tvoc, pm2_5, pm10, hcho, rh, temp.  Absent pollutant and
humidity readings default to `sensor_default`; an absent temperature is
skipped (`temp is not None and ...`). -/
def checkIaqTriggers (e : Engine) (r : SensorRow) : List String :=
  let tt := e.triggering
  (if r.co2.getD e.sensor_default > e.outdoor_co2 + tt.co2_ppm_above_outdoor then ["co2"] else []) ++
  (if r.tvoc.getD e.sensor_default > tt.tvoc_ug_m3 then ["tvoc"] else []) ++
  (if r.pm2_5.getD e.sensor_default > tt.pm2_5_ug_m3 then ["pm2_5"] else []) ++
  (if r.pm10.getD e.sensor_default > tt.pm10_ug_m3 then ["pm10"] else []) ++
  (if r.hcho.getD e.sensor_default > tt.hcho_ug_m3 then ["hcho"] else []) ++
  (if r.humidity.getD e.sensor_default > tt.rh_percent_max then ["rh"] else []) ++
  (match r.temperature with
   | some t => if t < tt.temp_c_min ∨ t > tt.temp_c_max then ["temp"] else []
   | none => [])

/-- `_check_for_normalization`: all pollutant readings strictly below the
normalization thresholds. -/
def checkForNormalization (e : Engine) (r : SensorRow) : Bool :=
  decide (r.co2.getD e.sensor_default < e.outdoor_co2 + e.normalization.co2_ppm_above_outdoor ∧
    r.tvoc.getD e.sensor_default < e.normalization.tvoc_ug_m3 ∧
    r.pm2_5.getD e.sensor_default < e.normalization.pm2_5_ug_m3 ∧
    r.pm10.getD e.sensor_default < e.normalization.pm10_ug_m3 ∧
    r.hcho.getD e.sensor_default < e.normalization.hcho_ug_m3)

/-- `_check_for_comfort_normalization`: temperature present and inside the
`[temp_c_min, temp_c_max]` band of the triggering thresholds. -/
def checkForComfortNormalization (e : Engine) (r : SensorRow) : Bool :=
  match r.temperature with
  | none => false
  | some t => decide (e.triggering.temp_c_min ≤ t ∧ t ≤ e.triggering.temp_c_max)

/-- `_check_for_dehumid_normalization`: comfort normalization and humidity
strictly below the RH normalization threshold. -/
def checkForDehumidNormalization (e : Engine) (r : SensorRow) : Bool :=
  checkForComfortNormalization e r &&
    decide (r.humidity.getD e.sensor_default < e.normalization.rh_percent_max)

example : checkIaqTriggers
    { outdoor_co2 := 415, sensor_default := 0, enable_bms_filter_check := true,
      triggering := ⟨500, 500, 25, 50, 100, 70, 23, 25, 10, 5, 3⟩,
      normalization := ⟨400, 400, 20, 40, 80, 65⟩,
      psi := ⟨101, 200, 201⟩,
      sensor_to_vav_map := [("047", "vav_01"), ("048", "vav_02")],
      actions := ⟨⟨10, 5⟩, ⟨10, 5⟩, some ⟨10⟩⟩ }
    ⟨0, "047", some 1000, none, none, none, none, none, some 22⟩ = ["co2", "temp"] := by
  decide

/-- `DataFrame.select(col).item()`: succeeds only when the filtered frame
has exactly one row, otherwise polars raises (shape error). -/
def dfItem {α : Type} : List α → Except String α
  | [a] => .ok a
  | [] => .error "DataFrame.item called on an empty frame"
  | _ :: _ :: _ => .error "DataFrame.item called on a frame with more than one row"

/-- `self.sensor_to_vav_map.get(sensor_id)` followed by the falsy test
`if not vav_id:` — both a missing key and an empty string count as no
mapping. -/
def vavIdFor (e : Engine) (sensorId : String) : String :=
  (e.sensor_to_vav_map.lookup sensorId).getD ""

/-- Helper shared by the branch embeddings: the VAV rows matching
`(pl.col("datetime") == ts) & (pl.col("vav_id") == vav_id)`. -/
def vavRowsAt (data : AllData) (ts : Nat) (vavId : String) : List VavRow :=
  data.vav.filter (fun v => v.datetime == ts && v.vav_id == vavId)

/-- `_execute_branch_a` (pollutant dilution).  The cycle-limit guard comes
first (and, only in this branch, sets `has_fired`); the cycle counter is
incremented before the VAV-mapping and data-presence checks; the
`.item()` reads of the AHU damper columns can raise when the AHU frame at
`ts` does not have exactly one row. -/
def executeBranchA (e : Engine) (ts : Nat) (sensorId : String) (data : AllData)
    (reasons : List String) (st : SensorState) : Except String (SensorState × List LogRecord) := do
  let maxCycles := e.triggering.max_dilution_cycles
  if st.dilution_cycle_count ≥ maxCycles then
    return ({st with has_fired := true},
      [⟨some ts, sensorId, "Dilution Failed", s!"Max cycles ({maxCycles}) reached", reasons, 0⟩])
  else
    let st1 := {st with dilution_cycle_count := st.dilution_cycle_count + 1}
    let cycle := st1.dilution_cycle_count
    let vavId := vavIdFor e sensorId
    if vavId = "" then
      return (st1, [⟨some ts, sensorId, "Branch A Skipped", "No VAV mapping found", reasons, cycle⟩])
    else
      let startRec : LogRecord :=
        ⟨some ts, sensorId, "Dilution Cycle Started", s!"Cycle #{cycle} for VAV \x27{vavId}\x27", reasons, cycle⟩
      let vavData := vavRowsAt data ts vavId
      if vavData.isEmpty then
        return (st1, [startRec, ⟨some ts, sensorId, "Branch A Halted",
          s!"VAV mapping exists for \x27{vavId}\x27, but no data found at this timestamp", reasons, cycle⟩])
      else
        let vavMax ← dfItem (vavData.map (fun v => v.cmaxflo))
        let vavCur ← dfItem (vavData.map (fun v => v.supflosp))
        if vavCur < vavMax then
          return (st1, [startRec, ⟨some ts, sensorId, "VAV Action",
            s!"VAV \x27{vavId}\x27 airflow not at max. Setting to maximum", reasons, cycle⟩])
        else
          let ahuData := data.ahu.filter (fun a => a.datetime == ts)
          let padFb ← dfItem (ahuData.map (fun a => a.fad_fb))
          let padMax ← dfItem (ahuData.map (fun a => a.fad_max_stpt))
          if padFb < padMax then
            let pct := e.triggering.pad_increase_percent
            return (st1, [startRec, ⟨some ts, sensorId, "PAD Action",
              s!"VAV at max. PAD/FAD not at max. Increasing opening by {pct}%", reasons, cycle⟩])
          else
            return (st1, [startRec, ⟨some ts, sensorId, "Alert",
              "VAV and PAD/FAD are both at maximum. Sending alert to FM team", reasons, cycle⟩])

/-- `_execute_branch_b` (cooling). -/
def executeBranchB (e : Engine) (ts : Nat) (sensorId : String) (data : AllData)
    (reasons : List String) (st : SensorState) : Except String (SensorState × List LogRecord) := do
  let maxCycles := e.triggering.max_dilution_cycles
  if st.dilution_cycle_count ≥ maxCycles then
    return (st, [⟨some ts, sensorId, "Cooling Failed", s!"Max cycles ({maxCycles}) reached", reasons, 0⟩])
  else
    let st1 := {st with dilution_cycle_count := st.dilution_cycle_count + 1}
    let cycle := st1.dilution_cycle_count
    let vavId := vavIdFor e sensorId
    if vavId = "" then
      return (st1, [⟨some ts, sensorId, "Branch B Skipped", "No VAV mapping found", reasons, cycle⟩])
    else
      let startRec : LogRecord :=
        ⟨some ts, sensorId, "Cooling Cycle Started", s!"Cycle #{cycle} for VAV \x27{vavId}\x27", reasons, cycle⟩
      let vavData := vavRowsAt data ts vavId
      if vavData.isEmpty then
        return (st1, [startRec, ⟨some ts, sensorId, "Branch B Halted",
          s!"VAV mapping exists for \x27{vavId}\x27, but no data found at this timestamp", reasons, cycle⟩])
      else
        let vavMax ← dfItem (vavData.map (fun v => v.cmaxflo))
        let vavCur ← dfItem (vavData.map (fun v => v.supflosp))
        if vavCur < vavMax then
          let pct := e.actions.branch_b.vav_flow_increase_pct
          return (st1, [startRec, ⟨some ts, sensorId, "VAV Action (Cooling)",
            s!"VAV \x27{vavId}\x27 not at max. Increasing flow setpoint by {pct}%", reasons, cycle⟩])
        else
          let pct := e.actions.branch_b.chw_valve_increase_pct
          return (st1, [startRec, ⟨some ts, sensorId, "CHW Valve Action (Cooling)",
            s!"VAV at max. Increasing Chilled Water Valve position by {pct}%", reasons, cycle⟩])

/-- `_execute_branch_c` (warming). -/
def executeBranchC (e : Engine) (ts : Nat) (sensorId : String) (data : AllData)
    (reasons : List String) (st : SensorState) : Except String (SensorState × List LogRecord) := do
  let maxCycles := e.triggering.max_dilution_cycles
  if st.dilution_cycle_count ≥ maxCycles then
    return (st, [⟨some ts, sensorId, "Warming Failed", s!"Max cycles ({maxCycles}) reached", reasons, 0⟩])
  else
    let st1 := {st with dilution_cycle_count := st.dilution_cycle_count + 1}
    let cycle := st1.dilution_cycle_count
    let vavId := vavIdFor e sensorId
    if vavId = "" then
      return (st1, [⟨some ts, sensorId, "Branch C Skipped", "No VAV mapping found", reasons, cycle⟩])
    else
      let startRec : LogRecord :=
        ⟨some ts, sensorId, "Warming Cycle Started", s!"Cycle #{cycle} for VAV \x27{vavId}\x27", reasons, cycle⟩
      let vavData := vavRowsAt data ts vavId
      if vavData.isEmpty then
        return (st1, [startRec, ⟨some ts, sensorId, "Branch C Halted",
          s!"VAV mapping exists for \x27{vavId}\x27, but no data found at this timestamp", reasons, cycle⟩])
      else
        let vavMin ← dfItem (vavData.map (fun v => v.ocmnc_sp))
        let vavCur ← dfItem (vavData.map (fun v => v.supflosp))
        if vavCur > vavMin then
          let pct := e.actions.branch_c.vav_flow_decrease_pct
          return (st1, [startRec, ⟨some ts, sensorId, "VAV Action (Warming)",
            s!"VAV \x27{vavId}\x27 not at min. Decreasing flow setpoint by {pct}%", reasons, cycle⟩])
        else
          let pct := e.actions.branch_c.chw_valve_decrease_pct
          return (st1, [startRec, ⟨some ts, sensorId, "CHW Valve Action (Warming)",
            s!"VAV at min. Decreasing Chilled Water Valve position by {pct}%", reasons, cycle⟩])

/-- `_execute_branch_d` (dehumidification).  No VAV dependency; the read of
`self.actions_config["branch_d"]` raises `KeyError` when the section is
absent, because `_validate_config` never checks it.  (In the Python code
the "Dehumidification Cycle Started" record is appended before the raise;
the raise aborts the whole run, so the embedding drops the partial log.) -/
def executeBranchD (e : Engine) (ts : Nat) (sensorId : String)
    (reasons : List String) (st : SensorState) : Except String (SensorState × List LogRecord) := do
  let maxCycles := e.triggering.max_dilution_cycles
  if st.dilution_cycle_count ≥ maxCycles then
    return (st, [⟨some ts, sensorId, "Dehumidification Failed", s!"Max cycles ({maxCycles}) reached", reasons, 0⟩])
  else
    let st1 := {st with dilution_cycle_count := st.dilution_cycle_count + 1}
    let cycle := st1.dilution_cycle_count
    let startRec : LogRecord :=
      ⟨some ts, sensorId, "Dehumidification Cycle Started", s!"Cycle #{cycle}", reasons, cycle⟩
    match e.actions.branch_d with
    | none => .error "KeyError: \x27branch_d\x27"
    | some bd =>
      let pct := bd.chw_valve_increase_pct
      return (st1, [startRec, ⟨some ts, sensorId, "CHW Valve Action (Dehumidifying)",
        s!"Increasing Chilled Water Valve position by {pct}%", reasons, cycle⟩])

/-- The pollutant trigger set `{"co2", "tvoc", "pm2_5", "pm10", "hcho"}`. -/
def pollutantTriggers : List String := ["co2", "tvoc", "pm2_5", "pm10", "hcho"]

/-- `_handle_persistent_alert`: the branch router.  The Python `elif` chain

```
if rh < rh_max and temp > temp_max: ...B
elif rh < rh_max and temp < temp_min: ...C
elif rh >= rh_max: ...D
else: conflict
```

is embedded with its exact short-circuit behaviour: when `rh < rh_max`
the comparison `temp > temp_max` is evaluated (a `TypeError` when the
temperature reading is `None`), and the two remaining arms collapse to
the conflict record since `rh >= rh_max` is false there; when
`rh ≥ rh_max` no temperature comparison is ever evaluated and Branch D
runs. -/
def handlePersistentAlert (e : Engine) (ts : Nat) (sensorId : String) (r : SensorRow)
    (reasons : List String) (data : AllData) (st : SensorState) :
    Except String (SensorState × List LogRecord) :=
  let isPollutantAlert := reasons.any (fun x => pollutantTriggers.contains x)
  if isPollutantAlert then
    let st1 := {st with alert_type := some "pollutant"}
    let routeRec : LogRecord :=
      ⟨some ts, sensorId, "Branch Routing", "Pollutant alert. Routing to Branch A.", reasons, 0⟩
    (executeBranchA e ts sensorId data reasons st1).map (fun p => (p.1, routeRec :: p.2))
  else
    let rh := r.humidity.getD e.sensor_default
    if rh < e.triggering.rh_percent_max then
      match r.temperature with
      | none => .error "TypeError: comparison between NoneType and number is not supported"
      | some temp =>
        if temp > e.triggering.temp_c_max then
          let st1 := {st with alert_type := some "comfort_hot"}
          let routeRec : LogRecord :=
            ⟨some ts, sensorId, "Branch Routing", "Comfort alert (Too Hot). Routing to Branch B.", reasons, 0⟩
          (executeBranchB e ts sensorId data reasons st1).map (fun p => (p.1, routeRec :: p.2))
        else if temp < e.triggering.temp_c_min then
          let st1 := {st with alert_type := some "comfort_cold"}
          let routeRec : LogRecord :=
            ⟨some ts, sensorId, "Branch Routing", "Comfort alert (Too Cold). Routing to Branch C.", reasons, 0⟩
          (executeBranchC e ts sensorId data reasons st1).map (fun p => (p.1, routeRec :: p.2))
        else
          .ok (st, [⟨some ts, sensorId, "Conflict Alert",
            "Ambiguous comfort triggers. Sending alert to FM team", reasons, 0⟩])
    else
      let st1 := {st with alert_type := some "comfort_humid"}
      let routeRec : LogRecord :=
        ⟨some ts, sensorId, "Branch Routing", "Comfort alert (Too Humid). Routing to Branch D.", reasons, 0⟩
      (executeBranchD e ts sensorId reasons st1).map (fun p => (p.1, routeRec :: p.2))

/-- The recovery check at the top of the per-sensor loop body of
`run_simulation` (lines 374-388): for an alerting sensor, the
normalization predicate matching the stored `alert_type`, together with
the "Normalization" record it logs.  Note that the transient classifier
value `"comfort"` (set at trigger time, before routing) matches none of
the arms, so such a sensor never normalizes here. -/
def normalizationRecord (e : Engine) (ts : Nat) (sensorId : String) (r : SensorRow)
    (st : SensorState) : Option LogRecord :=
  if st.is_triggered then
    match st.alert_type with
    | some "pollutant" =>
      if checkForNormalization e r then
        some ⟨some ts, sensorId, "Normalization", "Dilution Successful! Pollutant levels normalized.", [], 0⟩
      else none
    | some "comfort_hot" | some "comfort_cold" =>
      if checkForComfortNormalization e r then
        some ⟨some ts, sensorId, "Normalization", "Comfort Restored! Temperature is normal.", [], 0⟩
      else none
    | some "comfort_humid" =>
      if checkForDehumidNormalization e r then
        some ⟨some ts, sensorId, "Normalization", "Dehumidification Successful! RH and Temp are normal.", [], 0⟩
      else none
    | _ => none
  else none

/-- One iteration of the inner per-sensor loop of `run_simulation`
(lines 373-403), for a sensor whose state is `st`: the recovery check,
the trigger evaluation and the four-way state transition.  Subtracting
`ts - current_state["alert_start_time"]` when the start time is `None`
would be a Python `TypeError`, kept as an `Except` error (unreachable
from states the loop itself builds). -/
def processSensor (e : Engine) (ts : Nat) (r : SensorRow) (data : AllData)
    (st : SensorState) : Except String (SensorState × List LogRecord) :=
  match normalizationRecord e ts r.sensor_id r st with
  | some rec =>
    .ok ({ is_triggered := false, alert_start_time := none, has_fired := false,
           dilution_cycle_count := 0, alert_type := none }, [rec])
  | none =>
    let reasons := checkIaqTriggers e r
    let isCurrentlyTriggered := !reasons.isEmpty
    if isCurrentlyTriggered && !st.is_triggered then
      let alertType :=
        if reasons.any (fun x => pollutantTriggers.contains x) then "pollutant" else "comfort"
      .ok ({ is_triggered := true, alert_start_time := some ts, has_fired := false,
             dilution_cycle_count := 0, alert_type := some alertType }, [])
    else if isCurrentlyTriggered && st.is_triggered then
      match st.alert_start_time with
      | none => .error "TypeError: unsupported operand types for datetime and NoneType"
      | some t0 =>
        if ts - t0 ≥ e.triggering.persistence_minutes && !st.has_fired then
          (handlePersistentAlert e ts r.sensor_id r reasons data st).map
            (fun p => ({p.1 with has_fired := true}, p.2))
        else
          .ok (st, [])
    else if !isCurrentlyTriggered && st.is_triggered then
      .ok ({st with is_triggered := false, alert_start_time := none, has_fired := false}, [])
    else
      .ok (st, [])

/-- Python str() of an optional reading: `None` or the number itself. -/
def pyStr : Option Int → String
  | none => "None"
  | some v => toString v

/-- The details f-string of the "BMS Filter Alarm" record (the Python
code interpolates the raw status values). -/
def bmsAlarmDetails (ahuRow : AhuRow) : String :=
  let pri := pyStr ahuRow.pri_filt_sts
  let sec := pyStr ahuRow.sec_fil_sts
  s!"AHU filter clog detected (Primary Status: {pri}, Secondary Status: {sec}). FM team to inspect."

/-- `_check_bms_filter_alarms`: `none` when no alarm was raised, otherwise
the "BMS Filter Alarm" record.  The check is disabled by configuration,
is a no-op on an empty AHU frame, and otherwise reads the two filter
status flags of the first row (`to_dicts()[0]`). -/
def checkBmsFilterAlarms (e : Engine) (ts : Nat) (ahuDataForTs : List AhuRow) : Option LogRecord :=
  if !e.enable_bms_filter_check then none
  else
    match ahuDataForTs with
    | [] => none
    | ahuRow :: _ =>
      if ahuRow.pri_filt_sts == some 1 || ahuRow.sec_fil_sts == some 1 then
        some ⟨some ts, "SYSTEM_BMS", "BMS Filter Alarm", bmsAlarmDetails ahuRow, [], 0⟩
      else none

/-- Insert into a sorted list (ascending). -/
def insertNat (x : Nat) : List Nat → List Nat
  | [] => [x]
  | y :: ys => if x ≤ y then x :: y :: ys else y :: insertNat x ys

/-- Insertion sort, used to model `unique().sort()` on the timestamp
column together with `List.dedup`. -/
def sortNat : List Nat → List Nat
  | [] => []
  | x :: xs => insertNat x (sortNat xs)

/-- Store a sensor state under its id, replacing in place an existing
entry (Python dict assignment preserves insertion order). -/
def setState (states : List (String × SensorState)) (sid : String) (st : SensorState) :
    List (String × SensorState) :=
  match states with
  | [] => [(sid, st)]
  | (k, v) :: rest => if k = sid then (k, st) :: rest else (k, v) :: setState rest sid st

/-- The body of the per-timestamp loop of `run_simulation` (lines 364-403):
the BMS filter gate, then — only when the gate did not fire — one
`processSensor` step for every IAQ row at this timestamp.  A sensor not
seen before starts from `initState`, and its state entry is (re)stored
even when the step leaves it unchanged, as the Python dict does. -/
def processTimestamp (e : Engine) (ts : Nat) (data : AllData)
    (states : List (String × SensorState)) :
    Except String (List (String × SensorState) × List LogRecord) :=
  let ahuDataForTs := data.ahu.filter (fun a => a.datetime == ts)
  match checkBmsFilterAlarms e ts ahuDataForTs with
  | some rec => .ok (states, [rec])
  | none =>
    let readingsForTs := data.iaq.filter (fun r => r.datetime == ts)
    readingsForTs.foldlM
      (fun acc r => do
        let st := (acc.1.lookup r.sensor_id).getD initState
        let (st2, recs) ← processSensor e ts r data st
        pure (setState acc.1 r.sensor_id st2, acc.2 ++ recs))
      (states, [])

/-- The one-shot PSI advisory check at the top of `run_simulation`
(lines 352-363).  The fetched feed value is an input here: fetching and
extracting the `psi_twenty_four_hourly`/`central` value is external I/O
performed by `fetch_psi_data` (requests + polars), and an unavailable
feed is `none`.  Python truthiness makes `if psi_value_24hr:` skip both
advisories when the value is `None` or `0`.  The unhealthy-range check
runs first, the very-unhealthy check only in its `elif`. -/
def psiAdvisoryRecords (e : Engine) (psiValue24hr : Option Int) : List LogRecord :=
  match psiValue24hr with
  | none => []
  | some v =>
    if v == 0 then []
    else if e.psi.unhealthy_min ≤ v ∧ v ≤ e.psi.unhealthy_max then
      [⟨none, "SYSTEM", "PSI Alert",
        "PSI is Unhealthy. Haze Mode Protocol triggered. Recommending Carbon Filters.", [], 0⟩]
    else if v ≥ e.psi.very_unhealthy_min then
      [⟨none, "SYSTEM", "PSI Alert",
        "PSI is Very Unhealthy/Hazardous. Recommending HEPA Filters.", [], 0⟩]
    else []

/-- `run_simulation`: the PSI advisory once, then the per-timestamp loop
over the sorted distinct IAQ timestamps, threading the sensor-state map
and the log.  The result pairs the final state map with `log_records`. -/
def runSimulation (e : Engine) (psiValue24hr : Option Int) (data : AllData) :
    Except String (List (String × SensorState) × List LogRecord) :=
  let timestamps := sortNat (data.iaq.map (fun r => r.datetime)).dedup
  timestamps.foldlM
    (fun acc ts => (processTimestamp e ts data acc.1).map (fun p => (p.1, acc.2 ++ p.2)))
    (([] : List (String × SensorState)), psiAdvisoryRecords e psiValue24hr)

/-- Iterate `processSensor` over a sequence of readings of one sensor, in
order, accumulating the log: the trajectory of a single sensor through
the per-timestamp loop (the state of one sensor is never read or written
by the steps of another). -/
def runSensor (e : Engine) (data : AllData) (rows : List SensorRow) (st : SensorState) :
    Except String (SensorState × List LogRecord) :=
  rows.foldlM
    (fun acc r => (processSensor e r.datetime r data acc.1).map (fun p => (p.1, acc.2 ++ p.2)))
    (st, [])

/-- `required_sections` of `_validate_config`. -/
def requiredSections : List String :=
  ["data_files", "api_urls", "parameters", "defaults", "thresholds", "sensor_to_vav_map", "actions"]

/-- `required_triggers` of `_validate_config`. -/
def requiredTriggers : List String :=
  ["co2_ppm_above_outdoor", "tvoc_ug_m3", "pm2_5_ug_m3", "pm10_ug_m3",
   "hcho_ug_m3", "rh_percent_max", "temp_c_min", "temp_c_max",
   "persistence_minutes", "pad_increase_percent", "max_dilution_cycles"]

/-- `required_norms` of `_validate_config`. -/
def requiredNorms : List String :=
  ["co2_ppm_above_outdoor", "tvoc_ug_m3", "pm2_5_ug_m3", "pm10_ug_m3", "hcho_ug_m3", "rh_percent_max"]

/-- `required_psi` of `_validate_config`. -/
def requiredPsi : List String := ["unhealthy_min", "unhealthy_max", "very_unhealthy_min"]

/-- The key structure of a loaded `config.yaml` as `_validate_config` sees
it: for each (sub)section, which keys are present.  Only key presence
matters to validation. -/
structure RawConfig where
  sections : List String
  api_urls : List String
  parameters : List String
  defaults : List String
  thresholds : List String
  triggering : List String
  normalization : List String
  psi : List String
  actions : List String
deriving Repr, DecidableEq

/-- `_validate_config`, check for check in source order, returning the
first raised `ValueError` message as the `Except` error.  `find?` models
the first `for ... if ... raise` hit in each loop. -/
def validateConfig (c : RawConfig) : Except String Unit :=
  match requiredSections.find? (fun s => !(c.sections.contains s)) with
  | some s => .error s!"Configuration Error: Section \x27{s}\x27 is missing from config.yaml"
  | none =>
  if !(c.api_urls.contains "psi") then
    .error "Configuration Error: \x27psi\x27 key is missing from \x27api_urls\x27"
  else if !(c.parameters.contains "outdoor_co2_ppm") then
    .error "Configuration Error: \x27outdoor_co2_ppm\x27 is missing from \x27parameters\x27"
  else if !(c.defaults.contains "sensor_reading_default") then
    .error "Configuration Error: \x27sensor_reading_default\x27 is missing from \x27defaults\x27"
  else if !(c.thresholds.contains "triggering") || !(c.thresholds.contains "normalization") then
    .error "Configuration Error: \x27triggering\x27 or \x27normalization\x27 subsection is missing from \x27thresholds\x27"
  else
  match requiredTriggers.find? (fun k => !(c.triggering.contains k)) with
  | some k => .error s!"Configuration Error: Trigger threshold \x27{k}\x27 is missing from config.yaml"
  | none =>
  match requiredNorms.find? (fun k => !(c.normalization.contains k)) with
  | some k => .error s!"Configuration Error: Normalization threshold \x27{k}\x27 is missing from config.yaml"
  | none =>
  if !(c.thresholds.contains "psi") then
    .error "Configuration Error: \x27psi\x27 subsection is missing from \x27thresholds\x27"
  else
  match requiredPsi.find? (fun k => !(c.psi.contains k)) with
  | some k => .error s!"Configuration Error: PSI threshold \x27{k}\x27 is missing from config.yaml"
  | none =>
  if !(c.actions.contains "branch_b") || !(c.actions.contains "branch_c") then
    .error "Configuration Error: \x27branch_b\x27 or \x27branch_c\x27 is missing from \x27actions\x27"
  else .ok ()

/-- Spec-side reading of the validation contract ("all required
sections/keys must be present"): the conjunction of every key-presence
condition `_validate_config` checks, stated directly rather than as a
first-error scan.  Used to compare validation code against the spec. -/
def specRequiredKeysPresent (c : RawConfig) : Prop :=
  (∀ s ∈ requiredSections, s ∈ c.sections) ∧
  "psi" ∈ c.api_urls ∧
  "outdoor_co2_ppm" ∈ c.parameters ∧
  "sensor_reading_default" ∈ c.defaults ∧
  "triggering" ∈ c.thresholds ∧ "normalization" ∈ c.thresholds ∧
  (∀ k ∈ requiredTriggers, k ∈ c.triggering) ∧
  (∀ k ∈ requiredNorms, k ∈ c.normalization) ∧
  "psi" ∈ c.thresholds ∧
  (∀ k ∈ requiredPsi, k ∈ c.psi) ∧
  "branch_b" ∈ c.actions ∧ "branch_c" ∈ c.actions

instance (c : RawConfig) : Decidable (specRequiredKeysPresent c) := by
  unfold specRequiredKeysPresent
  infer_instance

/-- The configuration of `tests/conftest.py` (`mock_config_path`), used as
the concrete engine for witnesses and counterexamples. -/
def e0 : Engine :=
  { outdoor_co2 := 415, sensor_default := 0, enable_bms_filter_check := true,
    triggering := ⟨500, 500, 25, 50, 100, 70, 23, 25, 10, 5, 3⟩,
    normalization := ⟨400, 400, 20, 40, 80, 65⟩,
    psi := ⟨101, 200, 201⟩,
    sensor_to_vav_map := [("047", "vav_01"), ("048", "vav_02")],
    actions := ⟨⟨10, 5⟩, ⟨10, 5⟩, some ⟨10⟩⟩ }

/-- `e0` with a zero persistence window. -/
def e0p0 : Engine := {e0 with triggering := {e0.triggering with persistence_minutes := 0}}

/-- An IAQ row of sensor "047" carrying only a tvoc reading. -/
def rowTvoc (ts : Nat) (v : Int) : SensorRow :=
  ⟨ts, "047", none, some v, none, none, none, none, none⟩

/-- An IAQ row of sensor "047" carrying only a temperature reading. -/
def rowTemp (ts : Nat) (v : Int) : SensorRow :=
  ⟨ts, "047", none, none, none, none, none, none, some v⟩

/-- Empty VAV/AHU/IAQ tables. -/
def noData : AllData := ⟨[], [], []⟩

example : checkIaqTriggers e0 (rowTvoc 0 600) = ["tvoc"] := by decide
example : checkIaqTriggers e0 (rowTvoc 0 450) = [] := by decide
example : checkForNormalization e0 (rowTvoc 0 450) = false := by decide
example : checkForNormalization e0 (rowTvoc 0 300) = true := by decide

/-- The `alert_type` values the engine ever writes: `none` at creation
and on normalization, `"pollutant"` and the transient `"comfort"` at
trigger time, and the three comfort sub-types at routing time. -/
def alertTypeRange : List (Option String) :=
  [none, some "pollutant", some "comfort", some "comfort_hot", some "comfort_cold", some "comfort_humid"]

/-- An IAQ row of sensor "047" carrying only a humidity reading. -/
def rowHumidity (ts : Nat) (v : Int) : SensorRow :=
  ⟨ts, "047", none, none, none, none, none, some v, none⟩

/-- All states of a sensor-state map respect the cycle limit. -/
def statesCountLe (e : Engine) (states : List (String × SensorState)) : Prop :=
  ∀ p ∈ states, p.2.dilution_cycle_count ≤ e.triggering.max_dilution_cycles

/-- An AHU row whose primary filter status is tripped. -/
def ahuAlarmRow : AhuRow := ⟨4, some 1, some 0, 80, 100⟩

/-- Tables with one triggering IAQ reading and one tripped AHU row, both
at timestamp 4. -/
def dataBms : AllData := ⟨[rowTvoc 4 600], [], [ahuAlarmRow]⟩

/-- `e0` with overlapping PSI ranges (a configuration error per the spec):
the unhealthy band [101, 300] contains the very-unhealthy floor 201. -/
def ePsiOverlap : Engine := {e0 with psi := ⟨101, 300, 201⟩}

/-- A raw configuration carrying every key `_validate_config` checks,
plus `branch_d`. -/
def rawComplete : RawConfig :=
  ⟨requiredSections, ["psi"], ["outdoor_co2_ppm", "enable_bms_filter_check"],
   ["sensor_reading_default"], ["triggering", "normalization", "psi"],
   requiredTriggers, requiredNorms, requiredPsi, ["branch_b", "branch_c", "branch_d"]⟩

/-- `rawComplete` without `actions.branch_d` — every key the validator
checks is still present. -/
def rawNoBranchD : RawConfig := {rawComplete with actions := ["branch_b", "branch_c"]}

/-- `rawComplete` without the `thresholds` section. -/
def rawNoThresholds : RawConfig :=
  {rawComplete with sections :=
    ["data_files", "api_urls", "parameters", "defaults", "sensor_to_vav_map", "actions"]}

/-- `rawComplete` without the `persistence_minutes` trigger threshold. -/
def rawNoPersistence : RawConfig :=
  {rawComplete with triggering :=
    ["co2_ppm_above_outdoor", "tvoc_ug_m3", "pm2_5_ug_m3", "pm10_ug_m3",
     "hcho_ug_m3", "rh_percent_max", "temp_c_min", "temp_c_max",
     "pad_increase_percent", "max_dilution_cycles"]}

/-- The engine of `rawNoBranchD`: validated, but with no `branch_d`
actions section. -/
def e0noBD : Engine := {e0 with actions := ⟨⟨10, 5⟩, ⟨10, 5⟩, none⟩}

/-- One VAV row already at maximum flow at timestamp 6, with no AHU row
at that timestamp. -/
def dataVavAtMax : AllData := ⟨[], [⟨6, "vav_01", 1000, 1000, 200⟩], []⟩

/-! ## Claims -/

/-- **C1, counterexample.**  Sensor "047" is `ALERTING` with
`alert_type = "pollutant"`; its tvoc reading drops to 450, below the
trigger threshold 500 but not below the normalization threshold 400, so
no trigger is violated and the normalization predicate does not match.
The claim says the sensor remains `ALERTING` (`is_triggered` stays
`true`); the code instead leaves the `ALERTING` state: the resulting
state has `is_triggered = false` (and `alert_start_time` cleared), with
no "Normalization" record emitted. -/
theorem C1_counterexample :
    checkIaqTriggers e0 (rowTvoc 5 450) = [] ∧
    checkForNormalization e0 (rowTvoc 5 450) = false ∧
    processSensor e0 5 (rowTvoc 5 450) noData ⟨true, some 0, true, 2, some "pollutant"⟩ =
      .ok (⟨false, none, false, 2, some "pollutant"⟩, []) :=
  ⟨rfl, rfl, rfl⟩

/-- **C1, amended.**  For *any* sensor in the `ALERTING` state whose
readings no longer violate any trigger threshold but do not satisfy the
normalization predicate matching its stored alert type
(`normalizationRecord` — the recovery dispatch of lines 374-388 —
returns nothing: pollutant levels not below the stricter band for
`"pollutant"`, temperature not back in band for the comfort sub-types,
either failing for `"comfort_humid"`, and vacuously for the transient
`"comfort"`), the code *exits* the `ALERTING` state: `is_triggered` is
set to `false`, `alert_start_time` is cleared and `has_fired` is reset
to `false`, while `dilution_cycle_count` and `alert_type` are retained;
no "Normalization" record (indeed no record at all) is emitted. -/
theorem C1_amended_exit_without_normalization (e : Engine) (ts : Nat) (r : SensorRow)
    (data : AllData) (st : SensorState)
    (htrig : st.is_triggered = true)
    (hnr : normalizationRecord e ts r.sensor_id r st = none)
    (hreasons : checkIaqTriggers e r = []) :
    processSensor e ts r data st =
      .ok ({st with is_triggered := false, alert_start_time := none, has_fired := false}, []) := by
  unfold processSensor
  rw [hnr]
  have hemp : (checkIaqTriggers e r).isEmpty = true := by rw [hreasons]; rfl
  simp [hemp, htrig]

/-- Witness for `C1_amended_exit_without_normalization` at a concrete
non-pollutant input: a `comfort_humid` alert at RH 67 — below the
trigger threshold 70, so no longer violating, but at or above the
normalization threshold 65, so the dehumid predicate fails — leaves
`ALERTING` with its cycle count and alert type retained. -/
theorem C1_amended_witness :
    normalizationRecord e0 6 "047" (rowHumidity 6 67)
      ⟨true, some 0, true, 2, some "comfort_humid"⟩ = none ∧
    checkIaqTriggers e0 (rowHumidity 6 67) = [] ∧
    processSensor e0 6 (rowHumidity 6 67) noData ⟨true, some 0, true, 2, some "comfort_humid"⟩ =
      .ok (⟨false, none, false, 2, some "comfort_humid"⟩, []) :=
  ⟨rfl, by decide,
    C1_amended_exit_without_normalization e0 6 (rowHumidity 6 67) noData
      ⟨true, some 0, true, 2, some "comfort_humid"⟩ rfl rfl (by decide)⟩

/-- **C10.**  Whenever a sensor transitions from not-triggered to
triggered, the state is overwritten with a fresh episode:
`alert_start_time := ts`, `has_fired := false`,
`dilution_cycle_count := 0`, and `alert_type` freshly classified — for
*any* prior `dilution_cycle_count` and `alert_type`, in particular for a
stale state whose previous episode exhausted the cycle budget and ended
without a "Normalization" event.  The escalation budget is thus granted
anew per trigger episode. -/
theorem C10_fresh_episode_on_trigger (e : Engine) (ts : Nat) (r : SensorRow)
    (data : AllData) (st : SensorState)
    (hnot : st.is_triggered = false)
    (htrig : checkIaqTriggers e r ≠ []) :
    processSensor e ts r data st =
      .ok ({ is_triggered := true, alert_start_time := some ts, has_fired := false,
             dilution_cycle_count := 0,
             alert_type := some (if (checkIaqTriggers e r).any (fun x => pollutantTriggers.contains x)
                                 then "pollutant" else "comfort") }, []) := by
  unfold processSensor normalizationRecord
  rw [hnot]
  simp [List.isEmpty_iff, htrig]

/-- Witness for `C10_fresh_episode_on_trigger`: a stale state with an
exhausted budget (`dilution_cycle_count = 3 = max_dilution_cycles`) is
overwritten by a fresh episode. -/
theorem C10_witness :
    (⟨false, none, false, 3, some "pollutant"⟩ : SensorState).is_triggered = false ∧
    checkIaqTriggers e0 (rowTvoc 7 600) ≠ [] ∧
    processSensor e0 7 (rowTvoc 7 600) noData ⟨false, none, false, 3, some "pollutant"⟩ =
      .ok (⟨true, some 7, false, 0, some "pollutant"⟩, []) :=
  ⟨rfl, by decide, by
    have h := C10_fresh_episode_on_trigger e0 7 (rowTvoc 7 600) noData
      ⟨false, none, false, 3, some "pollutant"⟩ rfl (by decide)
    exact h.trans rfl⟩

/-- Shape of a successful Branch A execution: either the cycle-limit
guard fired (state only gains `has_fired`) or the cycle counter was
incremented by exactly one and nothing else in the state changed. -/
theorem executeBranchA_ok_state (e : Engine) (ts : Nat) (sid : String) (data : AllData)
    (rs : List String) (st s : SensorState) (recs : List LogRecord)
    (h : executeBranchA e ts sid data rs st = .ok (s, recs)) :
    (e.triggering.max_dilution_cycles ≤ st.dilution_cycle_count ∧ s = {st with has_fired := true}) ∨
    (st.dilution_cycle_count < e.triggering.max_dilution_cycles ∧
      s = {st with dilution_cycle_count := st.dilution_cycle_count + 1}) := by
  unfold executeBranchA at h
  simp only [bind, Except.bind, pure, Except.pure, ge_iff_le] at h
  repeat' split at h
  all_goals simp_all

/-- Shape of a successful Branch B execution. -/
theorem executeBranchB_ok_state (e : Engine) (ts : Nat) (sid : String) (data : AllData)
    (rs : List String) (st s : SensorState) (recs : List LogRecord)
    (h : executeBranchB e ts sid data rs st = .ok (s, recs)) :
    (e.triggering.max_dilution_cycles ≤ st.dilution_cycle_count ∧ s = st) ∨
    (st.dilution_cycle_count < e.triggering.max_dilution_cycles ∧
      s = {st with dilution_cycle_count := st.dilution_cycle_count + 1}) := by
  unfold executeBranchB at h
  simp only [bind, Except.bind, pure, Except.pure, ge_iff_le] at h
  repeat' split at h
  all_goals simp_all

/-- Shape of a successful Branch C execution. -/
theorem executeBranchC_ok_state (e : Engine) (ts : Nat) (sid : String) (data : AllData)
    (rs : List String) (st s : SensorState) (recs : List LogRecord)
    (h : executeBranchC e ts sid data rs st = .ok (s, recs)) :
    (e.triggering.max_dilution_cycles ≤ st.dilution_cycle_count ∧ s = st) ∨
    (st.dilution_cycle_count < e.triggering.max_dilution_cycles ∧
      s = {st with dilution_cycle_count := st.dilution_cycle_count + 1}) := by
  unfold executeBranchC at h
  simp only [bind, Except.bind, pure, Except.pure, ge_iff_le] at h
  repeat' split at h
  all_goals simp_all

/-- Shape of a successful Branch D execution. -/
theorem executeBranchD_ok_state (e : Engine) (ts : Nat) (sid : String)
    (rs : List String) (st s : SensorState) (recs : List LogRecord)
    (h : executeBranchD e ts sid rs st = .ok (s, recs)) :
    (e.triggering.max_dilution_cycles ≤ st.dilution_cycle_count ∧ s = st) ∨
    (st.dilution_cycle_count < e.triggering.max_dilution_cycles ∧
      s = {st with dilution_cycle_count := st.dilution_cycle_count + 1}) := by
  unfold executeBranchD at h
  simp only [bind, Except.bind, pure, Except.pure, ge_iff_le] at h
  repeat' split at h
  all_goals simp_all

/-- If mapping a function over an `Except` yields `ok`, the original was
`ok` and the result is the image. -/
theorem except_map_eq_ok {ε α β : Type} (g : α → β) (x : Except ε α) (y : β)
    (h : Except.map g x = .ok y) : ∃ a, x = .ok a ∧ y = g a := by
  cases x with
  | error msg => simp [Except.map] at h
  | ok a => simp only [Except.map, Except.ok.injEq] at h; exact ⟨a, rfl, h.symm⟩

/-- A successful router call leaves `alert_type` at one of the four routed
values, or (only in the conflict case) untouched. -/
theorem handlePersistentAlert_ok_alert_type (e : Engine) (ts : Nat) (sid : String)
    (r : SensorRow) (rs : List String) (data : AllData) (st s : SensorState)
    (recs : List LogRecord)
    (h : handlePersistentAlert e ts sid r rs data st = .ok (s, recs)) :
    s.alert_type = some "pollutant" ∨ s.alert_type = some "comfort_hot" ∨
    s.alert_type = some "comfort_cold" ∨ s.alert_type = some "comfort_humid" ∨
    s.alert_type = st.alert_type := by
  unfold handlePersistentAlert at h
  rcases hb : rs.any (fun x => pollutantTriggers.contains x) with _ | _ <;>
    simp only [hb, Bool.false_eq_true, if_false, if_true] at h
  · split at h
    · split at h
      · exact absurd h (by simp)
      · split at h
        · obtain ⟨⟨p1, p2⟩, hx, hy⟩ := except_map_eq_ok _ _ _ h
          injection hy with hs hr
          subst hs
          rcases executeBranchB_ok_state _ _ _ _ _ _ _ _ hx with ⟨-, hs⟩ | ⟨-, hs⟩ <;>
            subst hs <;> simp
        · split at h
          · obtain ⟨⟨p1, p2⟩, hx, hy⟩ := except_map_eq_ok _ _ _ h
            injection hy with hs hr
            subst hs
            rcases executeBranchC_ok_state _ _ _ _ _ _ _ _ hx with ⟨-, hs⟩ | ⟨-, hs⟩ <;>
              subst hs <;> simp
          · simp only [Except.ok.injEq, Prod.mk.injEq] at h
            obtain ⟨hs, -⟩ := h
            simp [← hs]
    · obtain ⟨⟨p1, p2⟩, hx, hy⟩ := except_map_eq_ok _ _ _ h
      injection hy with hs hr
      subst hs
      rcases executeBranchD_ok_state _ _ _ _ _ _ _ hx with ⟨-, hs⟩ | ⟨-, hs⟩ <;>
        subst hs <;> simp
  · obtain ⟨⟨p1, p2⟩, hx, hy⟩ := except_map_eq_ok _ _ _ h
    injection hy with hs hr
    subst hs
    rcases executeBranchA_ok_state _ _ _ _ _ _ _ _ hx with ⟨-, hs⟩ | ⟨-, hs⟩ <;>
      subst hs <;> simp

/-- `processSensor`, recovery case: the normalization predicate of the
stored alert type matched; the state is fully reset and only the
"Normalization" record is emitted. -/
theorem processSensor_eq_normalized (e : Engine) (ts : Nat) (r : SensorRow)
    (data : AllData) (st : SensorState) (rec : LogRecord)
    (hnr : normalizationRecord e ts r.sensor_id r st = some rec) :
    processSensor e ts r data st =
      .ok ({ is_triggered := false, alert_start_time := none, has_fired := false,
             dilution_cycle_count := 0, alert_type := none }, [rec]) := by
  unfold processSensor
  rw [hnr]

/-- `processSensor`, trigger transition case: not alerting, now
violating. -/
theorem processSensor_eq_transition (e : Engine) (ts : Nat) (r : SensorRow)
    (data : AllData) (st : SensorState)
    (hnr : normalizationRecord e ts r.sensor_id r st = none)
    (hemp : (checkIaqTriggers e r).isEmpty = false)
    (htr : st.is_triggered = false) :
    processSensor e ts r data st =
      .ok ({ is_triggered := true, alert_start_time := some ts, has_fired := false,
             dilution_cycle_count := 0,
             alert_type := some (if (checkIaqTriggers e r).any (fun x => pollutantTriggers.contains x)
                                 then "pollutant" else "comfort") }, []) := by
  unfold processSensor
  rw [hnr]
  simp [hemp, htr]

/-- `processSensor`, escalation case: alerting, still violating, the
persistence window elapsed and the alert has not fired yet — the branch
router runs and `has_fired` is set on its resulting state. -/
theorem processSensor_eq_fire (e : Engine) (ts : Nat) (r : SensorRow)
    (data : AllData) (st : SensorState) (t0 : Nat)
    (hnr : normalizationRecord e ts r.sensor_id r st = none)
    (hemp : (checkIaqTriggers e r).isEmpty = false)
    (htr : st.is_triggered = true)
    (hstart : st.alert_start_time = some t0)
    (hdur : e.triggering.persistence_minutes ≤ ts - t0)
    (hfired : st.has_fired = false) :
    processSensor e ts r data st =
      (handlePersistentAlert e ts r.sensor_id r (checkIaqTriggers e r) data st).map
        (fun p => ({p.1 with has_fired := true}, p.2)) := by
  unfold processSensor
  rw [hnr, hstart]
  simp [hemp, htr, hfired, hdur]

/-- `processSensor`, debounce case: alerting and still violating, but the
persistence window has not elapsed or the alert already fired — no
record, state unchanged. -/
theorem processSensor_eq_wait (e : Engine) (ts : Nat) (r : SensorRow)
    (data : AllData) (st : SensorState) (t0 : Nat)
    (hnr : normalizationRecord e ts r.sensor_id r st = none)
    (hemp : (checkIaqTriggers e r).isEmpty = false)
    (htr : st.is_triggered = true)
    (hstart : st.alert_start_time = some t0)
    (hcond : ts - t0 < e.triggering.persistence_minutes ∨ st.has_fired = true) :
    processSensor e ts r data st = .ok (st, []) := by
  unfold processSensor
  rw [hnr, hstart]
  rcases hcond with hd | hf
  · simp [hemp, htr, Nat.not_le.mpr hd]
  · simp [hemp, htr, hf]

/-- `processSensor`, trigger-cleared case: alerting (and not normalized)
but no trigger violated any more — the state leaves `ALERTING`,
retaining only the cycle count and alert type. -/
theorem processSensor_eq_exit (e : Engine) (ts : Nat) (r : SensorRow)
    (data : AllData) (st : SensorState)
    (hnr : normalizationRecord e ts r.sensor_id r st = none)
    (hemp : (checkIaqTriggers e r).isEmpty = true)
    (htr : st.is_triggered = true) :
    processSensor e ts r data st =
      .ok ({st with is_triggered := false, alert_start_time := none, has_fired := false}, []) := by
  unfold processSensor
  rw [hnr]
  simp [hemp, htr]

/-- `processSensor`, idle case: not alerting, not violating. -/
theorem processSensor_eq_noop (e : Engine) (ts : Nat) (r : SensorRow)
    (data : AllData) (st : SensorState)
    (hnr : normalizationRecord e ts r.sensor_id r st = none)
    (hemp : (checkIaqTriggers e r).isEmpty = true)
    (htr : st.is_triggered = false) :
    processSensor e ts r data st = .ok (st, []) := by
  unfold processSensor
  rw [hnr]
  simp [hemp, htr]

/-- `processSensor`, broken-state case: alerting and violating with no
stored start time — the Python subtraction `ts - None` raises
`TypeError`.  Unreachable from states the loop itself builds. -/
theorem processSensor_eq_typeerror (e : Engine) (ts : Nat) (r : SensorRow)
    (data : AllData) (st : SensorState)
    (hnr : normalizationRecord e ts r.sensor_id r st = none)
    (hemp : (checkIaqTriggers e r).isEmpty = false)
    (htr : st.is_triggered = true)
    (hstart : st.alert_start_time = none) :
    processSensor e ts r data st =
      .error "TypeError: unsupported operand types for datetime and NoneType" := by
  unfold processSensor
  rw [hnr, hstart]
  simp [hemp, htr]

/-- A successful `processSensor` step keeps `alert_type` inside
`alertTypeRange`. -/
theorem processSensor_alert_type_range (e : Engine) (ts : Nat) (r : SensorRow)
    (data : AllData) (st s : SensorState) (recs : List LogRecord)
    (hin : st.alert_type ∈ alertTypeRange)
    (h : processSensor e ts r data st = .ok (s, recs)) :
    s.alert_type ∈ alertTypeRange := by
  cases hnr : normalizationRecord e ts r.sensor_id r st with
  | some rec =>
    rw [processSensor_eq_normalized e ts r data st rec hnr] at h
    simp only [Except.ok.injEq, Prod.mk.injEq] at h
    obtain ⟨hs, -⟩ := h
    simp [← hs, alertTypeRange]
  | none =>
    rcases hemp : (checkIaqTriggers e r).isEmpty with _ | _
    · rcases htr : st.is_triggered with _ | _
      · rw [processSensor_eq_transition e ts r data st hnr hemp htr] at h
        simp only [Except.ok.injEq, Prod.mk.injEq] at h
        obtain ⟨hs, -⟩ := h
        rw [← hs]
        have hmem : ∀ b : Bool, some (if b = true then "pollutant" else "comfort") ∈ alertTypeRange := by
          intro b; cases b <;> simp [alertTypeRange]
        exact hmem _
      · cases hstart : st.alert_start_time with
        | none =>
          rw [processSensor_eq_typeerror e ts r data st hnr hemp htr hstart] at h
          exact absurd h (by simp)
        | some t0 =>
          by_cases hfd : st.has_fired = true
          · rw [processSensor_eq_wait e ts r data st t0 hnr hemp htr hstart (Or.inr hfd)] at h
            simp only [Except.ok.injEq, Prod.mk.injEq] at h
            obtain ⟨hs, -⟩ := h
            rwa [← hs]
          · have hfired : st.has_fired = false := by simpa using hfd
            by_cases hdur : e.triggering.persistence_minutes ≤ ts - t0
            · rw [processSensor_eq_fire e ts r data st t0 hnr hemp htr hstart hdur hfired] at h
              obtain ⟨⟨p1, p2⟩, hx, hy⟩ := except_map_eq_ok _ _ _ h
              injection hy with hs hr
              subst hs
              rcases handlePersistentAlert_ok_alert_type _ _ _ _ _ _ _ _ _ hx with
                h1 | h1 | h1 | h1 | h1 <;> simp_all [alertTypeRange]
            · rw [processSensor_eq_wait e ts r data st t0 hnr hemp htr hstart
                (Or.inl (Nat.not_le.mp hdur))] at h
              simp only [Except.ok.injEq, Prod.mk.injEq] at h
              obtain ⟨hs, -⟩ := h
              rwa [← hs]
    · rcases htr : st.is_triggered with _ | _
      · rw [processSensor_eq_noop e ts r data st hnr hemp htr] at h
        simp only [Except.ok.injEq, Prod.mk.injEq] at h
        obtain ⟨hs, -⟩ := h
        rwa [← hs]
      · rw [processSensor_eq_exit e ts r data st hnr hemp htr] at h
        simp only [Except.ok.injEq, Prod.mk.injEq] at h
        obtain ⟨hs, -⟩ := h
        rw [← hs]
        simpa using hin

/-- **C4, counterexample.**  Sensor "047" transitions from `NORMAL` to
`ALERTING` on a pure temperature trigger (30 with comfort band
[23, 25]).  The claim says `alert_type` then becomes one of the comfort
sub-types `comfort_hot`/`comfort_cold`/`comfort_humid`; the code
instead stores the transient value `"comfort"`, which is outside the
five-value enumeration the claim allows (the sub-types are resolved
only later, by the branch router at escalation time). -/
theorem C4_counterexample :
    processSensor e0 0 (rowTemp 0 30) noData initState =
      .ok (⟨true, some 0, false, 0, some "comfort"⟩, []) ∧
    (some "comfort") ∉
      ([none, some "pollutant", some "comfort_hot", some "comfort_cold", some "comfort_humid"] :
        List (Option String)) :=
  ⟨rfl, by decide⟩

/-- **C4, amended.**  On every transition from `NORMAL` to `ALERTING`,
`alert_type` is set to `"pollutant"` when any of
{co2, tvoc, pm2_5, pm10, hcho} is among the trigger reasons and
otherwise to the transient value `"comfort"` (the comfort sub-types
`comfort_hot`/`comfort_cold`/`comfort_humid` are assigned only later by
the branch router); at all times `alert_type` is one of {none,
pollutant, comfort, comfort_hot, comfort_cold, comfort_humid}
(`alertTypeRange`), preserved by every successful step. -/
theorem C4_amended_classification (e : Engine) (ts : Nat) (r : SensorRow)
    (data : AllData) (st : SensorState) :
    (∀ s recs, st.is_triggered = false → checkIaqTriggers e r ≠ [] →
      processSensor e ts r data st = .ok (s, recs) →
      s.alert_type = some (if (checkIaqTriggers e r).any (fun x => pollutantTriggers.contains x)
                           then "pollutant" else "comfort")) ∧
    (∀ s recs, st.alert_type ∈ alertTypeRange →
      processSensor e ts r data st = .ok (s, recs) → s.alert_type ∈ alertTypeRange) := by
  constructor
  · intro s recs hnot htrig h
    have hnr : normalizationRecord e ts r.sensor_id r st = none := by
      unfold normalizationRecord
      rw [hnot]
      simp
    have hemp : (checkIaqTriggers e r).isEmpty = false := by
      simpa [List.isEmpty_iff] using htrig
    rw [processSensor_eq_transition e ts r data st hnr hemp hnot] at h
    simp only [Except.ok.injEq, Prod.mk.injEq] at h
    obtain ⟨hs, -⟩ := h
    rw [← hs]
  · intro s recs hin h
    exact processSensor_alert_type_range e ts r data st s recs hin h

/-- Witness for `C4_amended_classification` at a concrete input: a fresh
temperature-only trigger yields the transient `"comfort"` classifier. -/
theorem C4_amended_witness :
    initState.is_triggered = false ∧
    checkIaqTriggers e0 (rowTemp 1 30) ≠ [] ∧
    (⟨true, some 1, false, 0, some "comfort"⟩ : SensorState).alert_type =
      some (if (checkIaqTriggers e0 (rowTemp 1 30)).any (fun x => pollutantTriggers.contains x)
            then "pollutant" else "comfort") :=
  ⟨rfl, by decide,
    (C4_amended_classification e0 1 (rowTemp 1 30) noData initState).1 _ _ rfl (by decide) rfl⟩

/-- **C5.**  Routing of a persistent alert: any pollutant reason routes to
Branch A regardless of other reasons; otherwise RH below `rh_percent_max`
with temperature above `temp_c_max` routes to Branch B, RH below max
with temperature below `temp_c_min` routes to Branch C, RH at or above
max routes to Branch D with the temperature never examined; the
remaining combination emits a single "Conflict Alert" record, leaves the
state untouched and dispatches no branch.  In every routed case the
"Branch Routing" record is prepended before the branch's own records
and the corresponding `alert_type` is stored. -/
theorem C5_routing (e : Engine) (ts : Nat) (sid : String) (r : SensorRow)
    (reasons : List String) (data : AllData) (st : SensorState) :
    ((∃ x ∈ reasons, x ∈ pollutantTriggers) →
      handlePersistentAlert e ts sid r reasons data st =
        (executeBranchA e ts sid data reasons {st with alert_type := some "pollutant"}).map
          (fun p => (p.1, (⟨some ts, sid, "Branch Routing",
            "Pollutant alert. Routing to Branch A.", reasons, 0⟩ : LogRecord) :: p.2))) ∧
    ((∀ x ∈ reasons, x ∉ pollutantTriggers) →
      r.humidity.getD e.sensor_default < e.triggering.rh_percent_max →
      ∀ t, r.temperature = some t → t > e.triggering.temp_c_max →
      handlePersistentAlert e ts sid r reasons data st =
        (executeBranchB e ts sid data reasons {st with alert_type := some "comfort_hot"}).map
          (fun p => (p.1, (⟨some ts, sid, "Branch Routing",
            "Comfort alert (Too Hot). Routing to Branch B.", reasons, 0⟩ : LogRecord) :: p.2))) ∧
    ((∀ x ∈ reasons, x ∉ pollutantTriggers) →
      r.humidity.getD e.sensor_default < e.triggering.rh_percent_max →
      ∀ t, r.temperature = some t → ¬(t > e.triggering.temp_c_max) → t < e.triggering.temp_c_min →
      handlePersistentAlert e ts sid r reasons data st =
        (executeBranchC e ts sid data reasons {st with alert_type := some "comfort_cold"}).map
          (fun p => (p.1, (⟨some ts, sid, "Branch Routing",
            "Comfort alert (Too Cold). Routing to Branch C.", reasons, 0⟩ : LogRecord) :: p.2))) ∧
    ((∀ x ∈ reasons, x ∉ pollutantTriggers) →
      e.triggering.rh_percent_max ≤ r.humidity.getD e.sensor_default →
      handlePersistentAlert e ts sid r reasons data st =
        (executeBranchD e ts sid reasons {st with alert_type := some "comfort_humid"}).map
          (fun p => (p.1, (⟨some ts, sid, "Branch Routing",
            "Comfort alert (Too Humid). Routing to Branch D.", reasons, 0⟩ : LogRecord) :: p.2))) ∧
    ((∀ x ∈ reasons, x ∉ pollutantTriggers) →
      r.humidity.getD e.sensor_default < e.triggering.rh_percent_max →
      ∀ t, r.temperature = some t → ¬(t > e.triggering.temp_c_max) → ¬(t < e.triggering.temp_c_min) →
      handlePersistentAlert e ts sid r reasons data st =
        .ok (st, [⟨some ts, sid, "Conflict Alert",
          "Ambiguous comfort triggers. Sending alert to FM team", reasons, 0⟩])) := by
  refine ⟨?_, ?_, ?_, ?_, ?_⟩
  · intro hp
    have hb : (reasons.any fun x => pollutantTriggers.contains x) = true := by
      rw [List.any_eq_true]
      obtain ⟨x, hx, hm⟩ := hp
      exact ⟨x, hx, by simpa using hm⟩
    unfold handlePersistentAlert
    simp only [hb, if_true]
  · intro hp hrh t ht htmax
    have hb : (reasons.any fun x => pollutantTriggers.contains x) = false := by
      rw [List.any_eq_false]
      intro x hx
      simpa using hp x hx
    unfold handlePersistentAlert
    rw [ht]
    simp only [hb, Bool.false_eq_true, if_false]
    rw [if_pos hrh, if_pos htmax]
  · intro hp hrh t ht htmax htmin
    have hb : (reasons.any fun x => pollutantTriggers.contains x) = false := by
      rw [List.any_eq_false]
      intro x hx
      simpa using hp x hx
    unfold handlePersistentAlert
    rw [ht]
    simp only [hb, Bool.false_eq_true, if_false]
    rw [if_pos hrh, if_neg htmax, if_pos htmin]
  · intro hp hrh
    have hb : (reasons.any fun x => pollutantTriggers.contains x) = false := by
      rw [List.any_eq_false]
      intro x hx
      simpa using hp x hx
    unfold handlePersistentAlert
    simp only [hb, Bool.false_eq_true, if_false]
    rw [if_neg (Int.not_lt.mpr hrh)]
  · intro hp hrh t ht htmax htmin
    have hb : (reasons.any fun x => pollutantTriggers.contains x) = false := by
      rw [List.any_eq_false]
      intro x hx
      simpa using hp x hx
    unfold handlePersistentAlert
    rw [ht]
    simp only [hb, Bool.false_eq_true, if_false]
    rw [if_pos hrh, if_neg htmax, if_neg htmin]

/-- Witness for `C5_routing`: a humidity-only persistent alert (RH 75
against max 70) routes to Branch D with the routing record prepended,
without ever reading the (absent) temperature. -/
theorem C5_routing_witness :
    (∀ x ∈ ["rh"], x ∉ pollutantTriggers) ∧
    e0.triggering.rh_percent_max ≤ (rowHumidity 5 75).humidity.getD e0.sensor_default ∧
    handlePersistentAlert e0 5 "047" (rowHumidity 5 75) ["rh"] noData
        ⟨true, some 0, false, 0, some "comfort"⟩ =
      (executeBranchD e0 5 "047" ["rh"]
        ⟨true, some 0, false, 0, some "comfort_humid"⟩).map
          (fun p => (p.1, (⟨some 5, "047", "Branch Routing",
            "Comfort alert (Too Humid). Routing to Branch D.", ["rh"], 0⟩ : LogRecord) :: p.2)) :=
  ⟨by decide, by decide,
    (C5_routing e0 5 "047" (rowHumidity 5 75) ["rh"] noData
      ⟨true, some 0, false, 0, some "comfort"⟩).2.2.2.1 (by decide) (by decide)⟩

/-- **C8.**  For a branch invocation below the cycle limit, a missing VAV
mapping ("Skipped") or a missing VAV data row at the current timestamp
("Halted") still consumes one cycle of the retry budget: the state's
`dilution_cycle_count` is already incremented (the records carry the
incremented cycle number) and nothing else of the state changes —
`is_triggered`, `alert_start_time`, `has_fired` and `alert_type` are
untouched.  This holds for each of the VAV-dependent branches A, B, C. -/
theorem C8_skip_halt_consume_cycle (e : Engine) (ts : Nat) (sid : String) (data : AllData)
    (reasons : List String) (st : SensorState)
    (hcyc : st.dilution_cycle_count < e.triggering.max_dilution_cycles) :
    (vavIdFor e sid = "" →
      executeBranchA e ts sid data reasons st =
        .ok ({st with dilution_cycle_count := st.dilution_cycle_count + 1},
          [⟨some ts, sid, "Branch A Skipped", "No VAV mapping found", reasons,
            st.dilution_cycle_count + 1⟩]) ∧
      executeBranchB e ts sid data reasons st =
        .ok ({st with dilution_cycle_count := st.dilution_cycle_count + 1},
          [⟨some ts, sid, "Branch B Skipped", "No VAV mapping found", reasons,
            st.dilution_cycle_count + 1⟩]) ∧
      executeBranchC e ts sid data reasons st =
        .ok ({st with dilution_cycle_count := st.dilution_cycle_count + 1},
          [⟨some ts, sid, "Branch C Skipped", "No VAV mapping found", reasons,
            st.dilution_cycle_count + 1⟩])) ∧
    (∀ vid, vavIdFor e sid = vid → vid ≠ "" → vavRowsAt data ts vid = [] →
      executeBranchA e ts sid data reasons st =
        .ok ({st with dilution_cycle_count := st.dilution_cycle_count + 1},
          [⟨some ts, sid, "Dilution Cycle Started",
            s!"Cycle #{st.dilution_cycle_count + 1} for VAV \x27{vid}\x27", reasons,
            st.dilution_cycle_count + 1⟩,
           ⟨some ts, sid, "Branch A Halted",
            s!"VAV mapping exists for \x27{vid}\x27, but no data found at this timestamp", reasons,
            st.dilution_cycle_count + 1⟩]) ∧
      executeBranchB e ts sid data reasons st =
        .ok ({st with dilution_cycle_count := st.dilution_cycle_count + 1},
          [⟨some ts, sid, "Cooling Cycle Started",
            s!"Cycle #{st.dilution_cycle_count + 1} for VAV \x27{vid}\x27", reasons,
            st.dilution_cycle_count + 1⟩,
           ⟨some ts, sid, "Branch B Halted",
            s!"VAV mapping exists for \x27{vid}\x27, but no data found at this timestamp", reasons,
            st.dilution_cycle_count + 1⟩]) ∧
      executeBranchC e ts sid data reasons st =
        .ok ({st with dilution_cycle_count := st.dilution_cycle_count + 1},
          [⟨some ts, sid, "Warming Cycle Started",
            s!"Cycle #{st.dilution_cycle_count + 1} for VAV \x27{vid}\x27", reasons,
            st.dilution_cycle_count + 1⟩,
           ⟨some ts, sid, "Branch C Halted",
            s!"VAV mapping exists for \x27{vid}\x27, but no data found at this timestamp", reasons,
            st.dilution_cycle_count + 1⟩])) := by
  have hguard : ¬(st.dilution_cycle_count ≥ e.triggering.max_dilution_cycles) :=
    Nat.not_le.mpr hcyc
  constructor
  · intro hskip
    refine ⟨?_, ?_, ?_⟩
    · unfold executeBranchA
      rw [if_neg hguard, if_pos hskip]; rfl
    · unfold executeBranchB
      rw [if_neg hguard, if_pos hskip]; rfl
    · unfold executeBranchC
      rw [if_neg hguard, if_pos hskip]; rfl
  · intro vid hvid hne hrows
    subst hvid
    refine ⟨?_, ?_, ?_⟩
    · unfold executeBranchA
      rw [if_neg hguard, if_neg hne, hrows]; rfl
    · unfold executeBranchB
      rw [if_neg hguard, if_neg hne, hrows]; rfl
    · unfold executeBranchC
      rw [if_neg hguard, if_neg hne, hrows]; rfl

/-- Witness for `C8_skip_halt_consume_cycle`: Branch A of sensor "047"
(mapped to "vav_01") at a timestamp with no VAV data halts, with the
cycle counter already advanced from 1 to 2 and the rest of the state
intact. -/
theorem C8_witness :
    (⟨true, some 0, false, 1, some "pollutant"⟩ : SensorState).dilution_cycle_count <
      e0.triggering.max_dilution_cycles ∧
    vavIdFor e0 "047" = "vav_01" ∧
    vavRowsAt noData 3 "vav_01" = [] ∧
    executeBranchA e0 3 "047" noData ["tvoc"] ⟨true, some 0, false, 1, some "pollutant"⟩ =
      .ok (⟨true, some 0, false, 2, some "pollutant"⟩,
        [⟨some 3, "047", "Dilution Cycle Started", "Cycle #2 for VAV \x27vav_01\x27", ["tvoc"], 2⟩,
         ⟨some 3, "047", "Branch A Halted",
          "VAV mapping exists for \x27vav_01\x27, but no data found at this timestamp", ["tvoc"], 2⟩]) :=
  ⟨by decide, by decide, rfl,
    (((C8_skip_halt_consume_cycle e0 3 "047" noData ["tvoc"]
      ⟨true, some 0, false, 1, some "pollutant"⟩ (by decide)).2 "vav_01"
        (by decide) (by decide) rfl).1)⟩

/-- A `lookup` hit in an association list is a member. -/
theorem lookup_mem {β : Type} (l : List (String × β)) (k : String) (v : β)
    (h : l.lookup k = some v) : (k, v) ∈ l := by
  induction l with
  | nil => simp [List.lookup] at h
  | cons p rest ih =>
    obtain ⟨k1, v1⟩ := p
    rcases hk : (k == k1) with _ | _
    · simp only [List.lookup, hk] at h
      exact List.mem_cons_of_mem _ (ih h)
    · simp only [List.lookup, hk, Option.some.injEq] at h
      subst h
      have : k = k1 := by simpa using hk
      subst this
      exact List.mem_cons_self _ _

/-- Every entry of `setState states sid st` is either an old entry or
carries the new state. -/
theorem setState_mem (states : List (String × SensorState)) (sid : String)
    (st : SensorState) (p : String × SensorState) (hp : p ∈ setState states sid st) :
    p ∈ states ∨ p.2 = st := by
  induction states with
  | nil =>
    unfold setState at hp
    rw [List.mem_singleton] at hp
    right; rw [hp]
  | cons q rest ih =>
    obtain ⟨k1, v1⟩ := q
    unfold setState at hp
    by_cases hk : k1 = sid
    · rw [if_pos hk] at hp
      rcases List.mem_cons.mp hp with h | h
      · right; rw [h]
      · left; exact List.mem_cons_of_mem _ h
    · rw [if_neg hk] at hp
      rcases List.mem_cons.mp hp with h | h
      · left; rw [h]; exact List.mem_cons_self _ _
      · rcases ih h with h1 | h1
        · left; exact List.mem_cons_of_mem _ h1
        · right; exact h1

/-- An invariant carried by `foldlM` over `Except`. -/
theorem foldlM_except_invariant {α β : Type} (P : β → Prop) (f : β → α → Except String β)
    (hstep : ∀ b a b', P b → f b a = .ok b' → P b') :
    ∀ (l : List α) (init : β), P init → ∀ res, l.foldlM f init = .ok res → P res := by
  intro l
  induction l with
  | nil =>
    intro init hinit res hres
    simp only [List.foldlM_nil, pure] at hres
    cases hres
    exact hinit
  | cons a l ih =>
    intro init hinit res hres
    rw [List.foldlM_cons] at hres
    cases hb : f init a with
    | error msg => rw [hb] at hres; exact absurd hres (by simp [bind, Except.bind])
    | ok b =>
      rw [hb] at hres
      simp only [bind, Except.bind] at hres
      exact ih b (hstep init a b hinit hb) res hres

/-- A successful router call either keeps the cycle counter or, strictly
below the limit, increments it by exactly one. -/
theorem handlePersistentAlert_ok_count (e : Engine) (ts : Nat) (sid : String)
    (r : SensorRow) (rs : List String) (data : AllData) (st s : SensorState)
    (recs : List LogRecord)
    (h : handlePersistentAlert e ts sid r rs data st = .ok (s, recs)) :
    s.dilution_cycle_count = st.dilution_cycle_count ∨
    (st.dilution_cycle_count < e.triggering.max_dilution_cycles ∧
      s.dilution_cycle_count = st.dilution_cycle_count + 1) := by
  unfold handlePersistentAlert at h
  rcases hb : rs.any (fun x => pollutantTriggers.contains x) with _ | _ <;>
    simp only [hb, Bool.false_eq_true, if_false, if_true] at h
  · split at h
    · split at h
      · exact absurd h (by simp)
      · split at h
        · obtain ⟨⟨p1, p2⟩, hx, hy⟩ := except_map_eq_ok _ _ _ h
          injection hy with hs hr
          subst hs
          rcases executeBranchB_ok_state _ _ _ _ _ _ _ _ hx with ⟨hc, hs⟩ | ⟨hc, hs⟩ <;>
            subst hs <;> simp_all
        · split at h
          · obtain ⟨⟨p1, p2⟩, hx, hy⟩ := except_map_eq_ok _ _ _ h
            injection hy with hs hr
            subst hs
            rcases executeBranchC_ok_state _ _ _ _ _ _ _ _ hx with ⟨hc, hs⟩ | ⟨hc, hs⟩ <;>
              subst hs <;> simp_all
          · simp only [Except.ok.injEq, Prod.mk.injEq] at h
            obtain ⟨hs, -⟩ := h
            simp [← hs]
    · obtain ⟨⟨p1, p2⟩, hx, hy⟩ := except_map_eq_ok _ _ _ h
      injection hy with hs hr
      subst hs
      rcases executeBranchD_ok_state _ _ _ _ _ _ _ hx with ⟨hc, hs⟩ | ⟨hc, hs⟩ <;>
        subst hs <;> simp_all
  · obtain ⟨⟨p1, p2⟩, hx, hy⟩ := except_map_eq_ok _ _ _ h
    injection hy with hs hr
    subst hs
    rcases executeBranchA_ok_state _ _ _ _ _ _ _ _ hx with ⟨hc, hs⟩ | ⟨hc, hs⟩ <;>
      subst hs <;> simp_all

/-- A successful `processSensor` step keeps the cycle counter at or below
the configured maximum. -/
theorem processSensor_count_le (e : Engine) (ts : Nat) (r : SensorRow)
    (data : AllData) (st s : SensorState) (recs : List LogRecord)
    (hin : st.dilution_cycle_count ≤ e.triggering.max_dilution_cycles)
    (h : processSensor e ts r data st = .ok (s, recs)) :
    s.dilution_cycle_count ≤ e.triggering.max_dilution_cycles := by
  cases hnr : normalizationRecord e ts r.sensor_id r st with
  | some rec =>
    rw [processSensor_eq_normalized e ts r data st rec hnr] at h
    simp only [Except.ok.injEq, Prod.mk.injEq] at h
    obtain ⟨hs, -⟩ := h
    simp [← hs]
  | none =>
    rcases hemp : (checkIaqTriggers e r).isEmpty with _ | _
    · rcases htr : st.is_triggered with _ | _
      · rw [processSensor_eq_transition e ts r data st hnr hemp htr] at h
        simp only [Except.ok.injEq, Prod.mk.injEq] at h
        obtain ⟨hs, -⟩ := h
        simp [← hs]
      · cases hstart : st.alert_start_time with
        | none =>
          rw [processSensor_eq_typeerror e ts r data st hnr hemp htr hstart] at h
          exact absurd h (by simp)
        | some t0 =>
          by_cases hfd : st.has_fired = true
          · rw [processSensor_eq_wait e ts r data st t0 hnr hemp htr hstart (Or.inr hfd)] at h
            simp only [Except.ok.injEq, Prod.mk.injEq] at h
            obtain ⟨hs, -⟩ := h
            rwa [← hs]
          · have hfired : st.has_fired = false := by simpa using hfd
            by_cases hdur : e.triggering.persistence_minutes ≤ ts - t0
            · rw [processSensor_eq_fire e ts r data st t0 hnr hemp htr hstart hdur hfired] at h
              obtain ⟨⟨p1, p2⟩, hx, hy⟩ := except_map_eq_ok _ _ _ h
              injection hy with hs hr
              subst hs
              rcases handlePersistentAlert_ok_count _ _ _ _ _ _ _ _ _ hx with h1 | ⟨h1, h2⟩ <;>
                simp_all <;> omega
            · rw [processSensor_eq_wait e ts r data st t0 hnr hemp htr hstart
                (Or.inl (Nat.not_le.mp hdur))] at h
              simp only [Except.ok.injEq, Prod.mk.injEq] at h
              obtain ⟨hs, -⟩ := h
              rwa [← hs]
    · rcases htr : st.is_triggered with _ | _
      · rw [processSensor_eq_noop e ts r data st hnr hemp htr] at h
        simp only [Except.ok.injEq, Prod.mk.injEq] at h
        obtain ⟨hs, -⟩ := h
        rwa [← hs]
      · rw [processSensor_eq_exit e ts r data st hnr hemp htr] at h
        simp only [Except.ok.injEq, Prod.mk.injEq] at h
        obtain ⟨hs, -⟩ := h
        simp [← hs]
        exact hin

/-- One loop timestamp preserves the cycle-limit bound of every stored
sensor state. -/
theorem processTimestamp_count_le (e : Engine) (ts : Nat) (data : AllData)
    (states states2 : List (String × SensorState)) (recs : List LogRecord)
    (hin : statesCountLe e states)
    (h : processTimestamp e ts data states = .ok (states2, recs)) :
    statesCountLe e states2 := by
  simp only [processTimestamp] at h
  cases hbms : checkBmsFilterAlarms e ts (data.ahu.filter (fun a => a.datetime == ts)) with
  | some rec =>
    rw [hbms] at h
    simp only [Except.ok.injEq, Prod.mk.injEq] at h
    obtain ⟨hs, -⟩ := h
    rwa [← hs]
  | none =>
    rw [hbms] at h
    refine foldlM_except_invariant (fun acc => statesCountLe e acc.1) _ ?_ _ (states, []) hin
      (states2, recs) h
    rintro ⟨sts, log⟩ r ⟨sts2, log2⟩ hP hstep
    cases hps : processSensor e ts r data ((sts.lookup r.sensor_id).getD initState) with
    | error msg =>
      rw [hps] at hstep
      exact absurd hstep (by simp [bind, Except.bind])
    | ok p =>
      obtain ⟨st2, rl⟩ := p
      rw [hps] at hstep
      simp only [bind, Except.bind, pure, Except.pure, Except.ok.injEq, Prod.mk.injEq] at hstep
      obtain ⟨hs2, -⟩ := hstep
      have hb : ((sts.lookup r.sensor_id).getD initState).dilution_cycle_count ≤
          e.triggering.max_dilution_cycles := by
        cases hlk : sts.lookup r.sensor_id with
        | none => exact Nat.zero_le _
        | some v => exact hP (r.sensor_id, v) (lookup_mem _ _ _ hlk)
      have hc2 := processSensor_count_le e ts r data _ st2 rl hb hps
      intro q hq
      rcases setState_mem sts r.sensor_id st2 q (hs2 ▸ hq) with hmem | hnew
      · exact hP q hmem
      · rw [hnew]; exact hc2

/-- A whole run keeps every sensor state at or below the cycle limit. -/
theorem runSimulation_count_le (e : Engine) (psi : Option Int) (data : AllData)
    (sts : List (String × SensorState)) (recs : List LogRecord)
    (h : runSimulation e psi data = .ok (sts, recs)) : statesCountLe e sts := by
  unfold runSimulation at h
  refine foldlM_except_invariant (fun acc => statesCountLe e acc.1) _ ?_ _
    ([], psiAdvisoryRecords e psi) (by intro q hq; cases hq) (sts, recs) h
  rintro ⟨s1, l1⟩ ts ⟨s2, l2⟩ hP hstep
  cases hpt : processTimestamp e ts data s1 with
  | error msg =>
    rw [hpt] at hstep
    exact absurd hstep (by simp [Except.map])
  | ok p =>
    obtain ⟨ps, pl⟩ := p
    rw [hpt] at hstep
    simp only [Except.map, Except.ok.injEq, Prod.mk.injEq] at hstep
    obtain ⟨hs2, -⟩ := hstep
    rw [← hs2]
    exact processTimestamp_count_le e ts data s1 ps pl hP hpt

/-- **C3.**  The cycle-limit guard: with `dilution_cycle_count` at or
above `max_dilution_cycles`, each branch resolver emits exactly its
branch-specific "Failed" record, performs no action and does not touch
the counter (Branch A alone also sets `has_fired`); below the limit a
successful resolver increments the counter by exactly one; one
`processSensor` step preserves `dilution_cycle_count ≤
max_dilution_cycles`; and every sensor state of a completed run
satisfies the bound — the counter never exceeds the limit. -/
theorem C3_cycle_limit (e : Engine) :
    (∀ ts sid data reasons (st : SensorState),
      e.triggering.max_dilution_cycles ≤ st.dilution_cycle_count →
      executeBranchA e ts sid data reasons st =
        .ok ({st with has_fired := true}, [⟨some ts, sid, "Dilution Failed",
          s!"Max cycles ({e.triggering.max_dilution_cycles}) reached", reasons, 0⟩]) ∧
      executeBranchB e ts sid data reasons st =
        .ok (st, [⟨some ts, sid, "Cooling Failed",
          s!"Max cycles ({e.triggering.max_dilution_cycles}) reached", reasons, 0⟩]) ∧
      executeBranchC e ts sid data reasons st =
        .ok (st, [⟨some ts, sid, "Warming Failed",
          s!"Max cycles ({e.triggering.max_dilution_cycles}) reached", reasons, 0⟩]) ∧
      executeBranchD e ts sid reasons st =
        .ok (st, [⟨some ts, sid, "Dehumidification Failed",
          s!"Max cycles ({e.triggering.max_dilution_cycles}) reached", reasons, 0⟩])) ∧
    (∀ ts sid data reasons (st s : SensorState) recs,
      st.dilution_cycle_count < e.triggering.max_dilution_cycles →
      (executeBranchA e ts sid data reasons st = .ok (s, recs) →
        s.dilution_cycle_count = st.dilution_cycle_count + 1) ∧
      (executeBranchB e ts sid data reasons st = .ok (s, recs) →
        s.dilution_cycle_count = st.dilution_cycle_count + 1) ∧
      (executeBranchC e ts sid data reasons st = .ok (s, recs) →
        s.dilution_cycle_count = st.dilution_cycle_count + 1) ∧
      (executeBranchD e ts sid reasons st = .ok (s, recs) →
        s.dilution_cycle_count = st.dilution_cycle_count + 1)) ∧
    (∀ ts r data (st s : SensorState) recs,
      st.dilution_cycle_count ≤ e.triggering.max_dilution_cycles →
      processSensor e ts r data st = .ok (s, recs) →
      s.dilution_cycle_count ≤ e.triggering.max_dilution_cycles) ∧
    (∀ psi data sts recs, runSimulation e psi data = .ok (sts, recs) →
      ∀ p ∈ sts, p.2.dilution_cycle_count ≤ e.triggering.max_dilution_cycles) := by
  refine ⟨?_, ?_, ?_, ?_⟩
  · intro ts sid data reasons st hge
    refine ⟨?_, ?_, ?_, ?_⟩
    · unfold executeBranchA
      rw [if_pos hge]; rfl
    · unfold executeBranchB
      rw [if_pos hge]; rfl
    · unfold executeBranchC
      rw [if_pos hge]; rfl
    · unfold executeBranchD
      rw [if_pos hge]; rfl
  · intro ts sid data reasons st s recs hlt
    refine ⟨?_, ?_, ?_, ?_⟩ <;> intro h
    · rcases executeBranchA_ok_state _ _ _ _ _ _ _ _ h with ⟨hc, -⟩ | ⟨-, hs⟩
      · omega
      · rw [hs]
    · rcases executeBranchB_ok_state _ _ _ _ _ _ _ _ h with ⟨hc, -⟩ | ⟨-, hs⟩
      · omega
      · rw [hs]
    · rcases executeBranchC_ok_state _ _ _ _ _ _ _ _ h with ⟨hc, -⟩ | ⟨-, hs⟩
      · omega
      · rw [hs]
    · rcases executeBranchD_ok_state _ _ _ _ _ _ _ h with ⟨hc, -⟩ | ⟨-, hs⟩
      · omega
      · rw [hs]
  · intro ts r data st s recs hle h
    exact processSensor_count_le e ts r data st s recs hle h
  · intro psi data sts recs h p hp
    exact runSimulation_count_le e psi data sts recs h p hp

/-- Witness for `C3_cycle_limit`: with the conftest limit of 3 cycles
reached, Branch A fails without incrementing, and a one-tick run ends
with all counters within the limit. -/
theorem C3_witness :
    e0.triggering.max_dilution_cycles ≤
      (⟨true, some 0, true, 3, some "pollutant"⟩ : SensorState).dilution_cycle_count ∧
    executeBranchA e0 9 "047" noData ["tvoc"] ⟨true, some 0, true, 3, some "pollutant"⟩ =
      .ok (⟨true, some 0, true, 3, some "pollutant"⟩,
        [⟨some 9, "047", "Dilution Failed", "Max cycles (3) reached", ["tvoc"], 0⟩]) :=
  ⟨by decide,
    ((C3_cycle_limit e0).1 9 "047" noData ["tvoc"]
      ⟨true, some 0, true, 3, some "pollutant"⟩ (by decide)).1⟩

/-- **C6.**  With the BMS filter check enabled, when the AHU row at the
current timestamp has a tripped primary or secondary filter status,
the per-timestamp body emits exactly one "BMS Filter Alarm" record and
performs no per-sensor evaluation: the state map is returned untouched
(no sensor state created or mutated) and no per-sensor record is
appended.  When no AHU row exists at the timestamp the check reports no
alarm (and evaluation proceeds normally). -/
theorem C6_bms_gate (e : Engine) (ts : Nat) (data : AllData)
    (states : List (String × SensorState)) :
    (∀ row rest, e.enable_bms_filter_check = true →
      data.ahu.filter (fun a => a.datetime == ts) = row :: rest →
      (row.pri_filt_sts = some 1 ∨ row.sec_fil_sts = some 1) →
      processTimestamp e ts data states =
        .ok (states, [⟨some ts, "SYSTEM_BMS", "BMS Filter Alarm", bmsAlarmDetails row, [], 0⟩])) ∧
    (data.ahu.filter (fun a => a.datetime == ts) = [] →
      checkBmsFilterAlarms e ts (data.ahu.filter (fun a => a.datetime == ts)) = none) := by
  constructor
  · intro row rest henable hrow hflag
    have hbms : checkBmsFilterAlarms e ts (data.ahu.filter (fun a => a.datetime == ts)) =
        some ⟨some ts, "SYSTEM_BMS", "BMS Filter Alarm", bmsAlarmDetails row, [], 0⟩ := by
      rw [hrow]
      unfold checkBmsFilterAlarms
      rcases hflag with hf | hf <;> simp [henable, hf]
    simp only [processTimestamp]
    rw [hbms]
  · intro hempty
    rw [hempty]
    unfold checkBmsFilterAlarms
    cases e.enable_bms_filter_check <;> rfl

/-- Witness for `C6_bms_gate`: at timestamp 4 the AHU row is tripped and
a tvoc reading of 600 (above the trigger threshold) is present, yet the
only record is the alarm and the state map stays empty. -/
theorem C6_witness :
    e0.enable_bms_filter_check = true ∧
    dataBms.ahu.filter (fun a => a.datetime == 4) = [ahuAlarmRow] ∧
    ahuAlarmRow.pri_filt_sts = some 1 ∧
    processTimestamp e0 4 dataBms [] =
      .ok ([], [⟨some 4, "SYSTEM_BMS", "BMS Filter Alarm",
        "AHU filter clog detected (Primary Status: 1, Secondary Status: 0). FM team to inspect.",
        [], 0⟩]) :=
  ⟨rfl, rfl, rfl, by
    have h := (C6_bms_gate e0 4 dataBms []).1 ahuAlarmRow [] rfl rfl (Or.inl rfl)
    exact h.trans (by rfl)⟩

/-- **C7, counterexample.**  With overlapping PSI ranges and an index of
250 — inside the unhealthy band and at or above `very_unhealthy_min` —
the claim says the very-unhealthy (HEPA) advisory takes precedence; the
code checks the unhealthy range first and emits the Haze-Mode/carbon
advisory instead. -/
theorem C7_counterexample :
    ePsiOverlap.psi.unhealthy_min ≤ 250 ∧ (250 : Int) ≤ ePsiOverlap.psi.unhealthy_max ∧
    ePsiOverlap.psi.very_unhealthy_min ≤ 250 ∧
    psiAdvisoryRecords ePsiOverlap (some 250) =
      [⟨none, "SYSTEM", "PSI Alert",
        "PSI is Unhealthy. Haze Mode Protocol triggered. Recommending Carbon Filters.", [], 0⟩] ∧
    ("PSI is Unhealthy. Haze Mode Protocol triggered. Recommending Carbon Filters." : String) ≠
      "PSI is Very Unhealthy/Hazardous. Recommending HEPA Filters." :=
  ⟨by decide, by decide, by decide, rfl, by decide⟩

/-- **C7, amended.**  The advisory check runs once, before the
per-timestamp loop — its records are a prefix of every successful run's
log.  For a nonzero fetched index: inside `[unhealthy_min,
unhealthy_max]` exactly one carbon-filtration (Haze Mode) advisory is
emitted — this check runs first and therefore wins when the ranges
overlap by configuration error; otherwise, at or above
`very_unhealthy_min`, exactly one HEPA advisory; otherwise none.  An
unavailable feed (`none`) — or an index of `0`, which Python truthiness
treats as unavailable — yields no advisory and the simulation proceeds. -/
theorem C7_amended_psi (e : Engine) (psi : Option Int) (data : AllData) :
    (psiAdvisoryRecords e none = []) ∧
    (∀ v : Int, v ≠ 0 → e.psi.unhealthy_min ≤ v → v ≤ e.psi.unhealthy_max →
      psiAdvisoryRecords e (some v) =
        [⟨none, "SYSTEM", "PSI Alert",
          "PSI is Unhealthy. Haze Mode Protocol triggered. Recommending Carbon Filters.", [], 0⟩]) ∧
    (∀ v : Int, v ≠ 0 → ¬(e.psi.unhealthy_min ≤ v ∧ v ≤ e.psi.unhealthy_max) →
      e.psi.very_unhealthy_min ≤ v →
      psiAdvisoryRecords e (some v) =
        [⟨none, "SYSTEM", "PSI Alert",
          "PSI is Very Unhealthy/Hazardous. Recommending HEPA Filters.", [], 0⟩]) ∧
    (∀ v : Int, v ≠ 0 → ¬(e.psi.unhealthy_min ≤ v ∧ v ≤ e.psi.unhealthy_max) →
      v < e.psi.very_unhealthy_min → psiAdvisoryRecords e (some v) = []) ∧
    (psiAdvisoryRecords e (some 0) = []) ∧
    (∀ sts recs, runSimulation e psi data = .ok (sts, recs) →
      ∃ rest, recs = psiAdvisoryRecords e psi ++ rest) := by
  refine ⟨rfl, ?_, ?_, ?_, rfl, ?_⟩
  · intro v hv0 h1 h2
    simp only [psiAdvisoryRecords]
    have hb : (v == 0) = false := by simpa using hv0
    rw [hb]
    simp only [Bool.false_eq_true, if_false]
    rw [if_pos ⟨h1, h2⟩]
  · intro v hv0 hnot hge
    simp only [psiAdvisoryRecords]
    have hb : (v == 0) = false := by simpa using hv0
    rw [hb]
    simp only [Bool.false_eq_true, if_false]
    rw [if_neg hnot, if_pos hge]
  · intro v hv0 hnot hlt
    simp only [psiAdvisoryRecords]
    have hb : (v == 0) = false := by simpa using hv0
    rw [hb]
    simp only [Bool.false_eq_true, if_false]
    rw [if_neg hnot, if_neg (Int.not_le.mpr hlt)]
  · intro sts recs h
    unfold runSimulation at h
    have hinv := foldlM_except_invariant
      (fun acc : List (String × SensorState) × List LogRecord =>
        ∃ rest, acc.2 = psiAdvisoryRecords e psi ++ rest) _ ?_ _
      ([], psiAdvisoryRecords e psi) ⟨[], by simp⟩ (sts, recs) h
    · exact hinv
    · rintro ⟨s1, l1⟩ ts ⟨s2, l2⟩ ⟨rest, hl⟩ hstep
      cases hpt : processTimestamp e ts data s1 with
      | error msg =>
        rw [hpt] at hstep
        exact absurd hstep (by simp [Except.map])
      | ok p =>
        rw [hpt] at hstep
        simp only [Except.map, Except.ok.injEq, Prod.mk.injEq] at hstep
        obtain ⟨-, hl2⟩ := hstep
        refine ⟨rest ++ p.2, ?_⟩
        have hl1 : l1 = psiAdvisoryRecords e psi ++ rest := hl
        show l2 = psiAdvisoryRecords e psi ++ (rest ++ p.2)
        rw [← hl2, hl1, List.append_assoc]

/-- Witness for `C7_amended_psi`: the conftest thresholds with the test
feed value 150 produce exactly the Haze-Mode advisory. -/
theorem C7_witness :
    (150 : Int) ≠ 0 ∧ e0.psi.unhealthy_min ≤ 150 ∧ (150 : Int) ≤ e0.psi.unhealthy_max ∧
    psiAdvisoryRecords e0 (some 150) =
      [⟨none, "SYSTEM", "PSI Alert",
        "PSI is Unhealthy. Haze Mode Protocol triggered. Recommending Carbon Filters.", [], 0⟩] :=
  ⟨by decide, by decide, by decide,
    (C7_amended_psi e0 none noData).2.1 150 (by decide) (by decide) (by decide)⟩

/-- A sensor that is not alerting never matches a recovery predicate. -/
theorem normalizationRecord_not_triggered (e : Engine) (ts : Nat) (sid : String)
    (r : SensorRow) (st : SensorState) (htr : st.is_triggered = false) :
    normalizationRecord e ts sid r st = none := by
  unfold normalizationRecord
  rw [htr]
  simp

/-- When neither the pollutant nor the comfort normalization predicate
holds of the current reading, no alert type can recover (the dehumid
predicate contains the comfort one conjunctively). -/
theorem normalizationRecord_eq_none (e : Engine) (ts : Nat) (sid : String)
    (r : SensorRow) (st : SensorState)
    (hpoll : checkForNormalization e r = false)
    (hcomf : checkForComfortNormalization e r = false) :
    normalizationRecord e ts sid r st = none := by
  unfold normalizationRecord
  split
  · split <;> simp [hpoll, hcomf, checkForDehumidNormalization]
  · rfl

/-- Folding `processSensor` over readings that each leave the state
unchanged and emit nothing is itself a no-op. -/
theorem runSensor_foldlM_noop (e : Engine) (data : AllData) (st : SensorState) :
    ∀ (rows : List SensorRow) (l : List LogRecord),
    (∀ r ∈ rows, processSensor e r.datetime r data st = .ok (st, [])) →
    rows.foldlM
      (fun acc r => (processSensor e r.datetime r data acc.1).map (fun p => (p.1, acc.2 ++ p.2)))
      (st, l) = .ok (st, l) := by
  intro rows
  induction rows with
  | nil => intro l hrows; rfl
  | cons r rows ih =>
    intro l hrows
    rw [List.foldlM_cons, hrows r (List.mem_cons_self _ _)]
    simp only [Except.map, bind, Except.bind, List.append_nil]
    exact ih l (fun r1 h1 => hrows r1 (List.mem_cons_of_mem _ h1))

/-- **C9, counterexample.**  A configuration missing `actions.branch_d`
passes `_validate_config` (it only checks `branch_b`/`branch_c`), so a
partially configured engine is accepted; running Branch D on that
engine raises `KeyError` inside the per-timestamp loop.  Independently,
Branch A aborts with an exception when the VAV is at maximum and no AHU
row exists at the timestamp (`DataFrame.item` on an empty frame) — so
an exception can abort the loop even on a fully validated engine. -/
theorem C9_counterexample :
    validateConfig rawNoBranchD = .ok () ∧
    executeBranchD e0noBD 5 "047" ["rh"] ⟨true, some 0, false, 0, some "comfort_humid"⟩ =
      .error "KeyError: \x27branch_d\x27" ∧
    executeBranchA e0 6 "047" dataVavAtMax ["tvoc"] ⟨true, some 0, false, 0, some "pollutant"⟩ =
      .error "DataFrame.item called on an empty frame" :=
  ⟨rfl, rfl, rfl⟩

/-- **C9, amended.**  `_validate_config` succeeds exactly when every key
it checks is present (`specRequiredKeysPresent`), and a missing checked
key makes construction fail with an error naming the first missing
path, before any simulation step; but the checked keys do not include
`actions.branch_d` (nor the per-branch percentage keys), and once
construction succeeds an exception can still abort the per-timestamp
loop: Branch D with a missing `branch_d` section, or Branch A reading
AHU damper data at a timestamp without exactly one AHU row (see the
counterexample). -/
theorem C9_amended_validation (c : RawConfig) :
    (validateConfig c = .ok () ↔ specRequiredKeysPresent c) ∧
    validateConfig rawNoThresholds =
      .error "Configuration Error: Section \x27thresholds\x27 is missing from config.yaml" ∧
    validateConfig rawNoPersistence =
      .error "Configuration Error: Trigger threshold \x27persistence_minutes\x27 is missing from config.yaml" := by
  refine ⟨?_, rfl, rfl⟩
  constructor
  · intro h
    unfold validateConfig at h
    repeat' split at h
    all_goals try exact Except.noConfusion h
    simp_all [specRequiredKeysPresent, List.find?_eq_none]
  · intro hs
    obtain ⟨h1, h2, h3, h4, h5, h6, h7, h8, h9, h10, h11, h12⟩ := hs
    have g1 : requiredSections.find? (fun s => !decide (s ∈ c.sections)) = none :=
      List.find?_eq_none.mpr (fun s hs' => by simp [h1 s hs'])
    have g6 : requiredTriggers.find? (fun k => !decide (k ∈ c.triggering)) = none :=
      List.find?_eq_none.mpr (fun k hk => by simp [h7 k hk])
    have g7 : requiredNorms.find? (fun k => !decide (k ∈ c.normalization)) = none :=
      List.find?_eq_none.mpr (fun k hk => by simp [h8 k hk])
    have g9 : requiredPsi.find? (fun k => !decide (k ∈ c.psi)) = none :=
      List.find?_eq_none.mpr (fun k hk => by simp [h10 k hk])
    simp [validateConfig, g1, g6, g7, g9, h2, h3, h4, h5, h6, h9, h11, h12]

/-- Witness for `C9_amended_validation`: the complete key set validates
successfully. -/
theorem C9_witness :
    specRequiredKeysPresent rawComplete ∧ validateConfig rawComplete = .ok () :=
  ⟨by decide, (C9_amended_validation rawComplete).1.mpr (by decide)⟩

/-- **C2, counterexample.**  With a zero persistence window
(`persistence_minutes = 0`) the trigger condition of sensor "047" first
appears at tick 0, and 0 - 0 ≥ 0 makes tick 0 itself the first tick at
which elapsed time reaches the threshold; the claim therefore requires
the branch router to run at tick 0.  The code instead only transitions
the state at tick 0: no record is emitted and `has_fired` stays
`false` — the router can run at the next tick at the earliest. -/
theorem C2_counterexample :
    e0p0.triggering.persistence_minutes ≤ 0 - 0 ∧
    checkIaqTriggers e0p0 (rowTvoc 0 600) ≠ [] ∧
    processSensor e0p0 0 (rowTvoc 0 600) noData initState =
      .ok (⟨true, some 0, false, 0, some "pollutant"⟩, []) :=
  ⟨by decide, by decide, rfl⟩

/-- **C2, amended.**  For a sensor whose trigger condition first appears
at tick `t0` and remains violated (without meeting any normalization
predicate) afterwards: every tick strictly after `t0` with elapsed time
below `persistence_minutes` leaves the alerting state untouched and
emits nothing (the debounce — a transient violation never escalates);
at the first tick after `t0` whose elapsed time reaches the window the
branch router is invoked, with `has_fired` then set; and at any tick
whose state has already fired, the step is again a no-op, so the router
runs exactly once.  For `persistence_minutes ≥ 1` this first firing
tick is exactly the first tick where `t - t0 ≥ persistence_minutes`, as
the claim states; with a zero window the code fires one tick later than
the claim requires (see the counterexample). -/
theorem C2_amended_escalation (e : Engine) (data : AllData) (t0 : Nat) (r0 : SensorRow)
    (pre : List SensorRow) (rstar : SensorRow)
    (ht0 : r0.datetime = t0)
    (htrig0 : checkIaqTriggers e r0 ≠ [])
    (hpre : ∀ r ∈ pre, checkIaqTriggers e r ≠ [] ∧ checkForNormalization e r = false ∧
      checkForComfortNormalization e r = false ∧
      r.datetime - t0 < e.triggering.persistence_minutes)
    (htrigs : checkIaqTriggers e rstar ≠ [])
    (hnorms : checkForNormalization e rstar = false)
    (hnormc : checkForComfortNormalization e rstar = false)
    (hdur : e.triggering.persistence_minutes ≤ rstar.datetime - t0) :
    (runSensor e data (r0 :: pre) initState =
      .ok (⟨true, some t0, false, 0,
        some (if (checkIaqTriggers e r0).any (fun x => pollutantTriggers.contains x)
              then "pollutant" else "comfort")⟩, [])) ∧
    (processSensor e rstar.datetime rstar data
        ⟨true, some t0, false, 0,
          some (if (checkIaqTriggers e r0).any (fun x => pollutantTriggers.contains x)
                then "pollutant" else "comfort")⟩ =
      (handlePersistentAlert e rstar.datetime rstar.sensor_id rstar (checkIaqTriggers e rstar)
          data
          ⟨true, some t0, false, 0,
            some (if (checkIaqTriggers e r0).any (fun x => pollutantTriggers.contains x)
                  then "pollutant" else "comfort")⟩).map
        (fun p => ({p.1 with has_fired := true}, p.2))) ∧
    (∀ (st : SensorState) (r1 : SensorRow) (t1 : Nat),
      st.is_triggered = true → st.has_fired = true → st.alert_start_time = some t1 →
      checkIaqTriggers e r1 ≠ [] → checkForNormalization e r1 = false →
      checkForComfortNormalization e r1 = false →
      processSensor e r1.datetime r1 data st = .ok (st, [])) := by
  have hemp0 : (checkIaqTriggers e r0).isEmpty = false := by
    simpa [List.isEmpty_iff] using htrig0
  refine ⟨?_, ?_, ?_⟩
  · unfold runSensor
    rw [List.foldlM_cons]
    rw [processSensor_eq_transition e r0.datetime r0 data initState
      (normalizationRecord_not_triggered e r0.datetime r0.sensor_id r0 initState rfl) hemp0 rfl]
    simp only [Except.map, bind, Except.bind, List.nil_append, ht0]
    exact runSensor_foldlM_noop e data _ pre [] (fun r hr => by
      obtain ⟨htrig, hpoll, hcomf, hlt⟩ := hpre r hr
      exact processSensor_eq_wait e r.datetime r data _ t0
        (normalizationRecord_eq_none e r.datetime r.sensor_id r _ hpoll hcomf)
        (by simpa [List.isEmpty_iff] using htrig) rfl rfl (Or.inl hlt))
  · exact processSensor_eq_fire e rstar.datetime rstar data _ t0
      (normalizationRecord_eq_none e rstar.datetime rstar.sensor_id rstar _ hnorms hnormc)
      (by simpa [List.isEmpty_iff] using htrigs) rfl rfl hdur rfl
  · intro st r1 t1 htr hfd hstart htrig hpoll hcomf
    exact processSensor_eq_wait e r1.datetime r1 data st t1
      (normalizationRecord_eq_none e r1.datetime r1.sensor_id r1 st hpoll hcomf)
      (by simpa [List.isEmpty_iff] using htrig) htr hstart (Or.inr hfd)

/-- Witness for `C2_amended_escalation` on the conftest configuration
(persistence 10): trigger at tick 0, still violating at tick 1 (no
escalation), escalation exactly at tick 10. -/
theorem C2_witness :
    checkIaqTriggers e0 (rowTvoc 0 600) ≠ [] ∧
    e0.triggering.persistence_minutes ≤ (rowTvoc 10 600).datetime - 0 ∧
    runSensor e0 noData [rowTvoc 0 600, rowTvoc 1 600] initState =
      .ok (⟨true, some 0, false, 0, some "pollutant"⟩, []) :=
  ⟨by decide, by decide, by
    have h := (C2_amended_escalation e0 noData 0 (rowTvoc 0 600) [rowTvoc 1 600] (rowTvoc 10 600)
      rfl (by decide)
      (by intro r hr; rw [List.mem_singleton] at hr; subst hr
          exact ⟨by decide, by decide, by decide, by decide⟩)
      (by decide) (by decide) (by decide) (by decide)).1
    exact h.trans (by rfl)⟩
